import Mathlib

/-!
Verification development for the nipoppy-ppmi curation code base.

The Python sources are embedded shallowly: pandas data frames become lists of
row structures, CSV cells become `Option String` (`none` models NaN), Python
exceptions become `Except String`, and float values that only ever undergo
comparison, maximum and averaging are embedded as unnormalised integer
fractions (`PyF`), compared and combined exactly.  Each definition
mirrors one Python function of the repository and is named after it where Lean
allows.
-/

deriving instance DecidableEq for Except

namespace PPMI

/-- Python `str.lower()` restricted to the character-wise lowering used by the
code (`Char.toLower` agrees with Python on the ASCII descriptions involved). -/
def lowerChars (cs : List Char) : List Char := cs.map Char.toLower

/-- Python substring test `needle in hay` on character lists. -/
def charsContain (hay needle : List Char) : Bool :=
  (List.range (hay.length + 1)).any (fun i => needle.isPrefixOf (hay.drop i))

/-- Case-insensitive substring test `needle.lower() in hay.lower()`. -/
def containsCI (hay needle : String) : Bool :=
  charsContain (lowerChars hay.toList) (lowerChars needle.toList)

/-- Case-sensitive substring test `needle in hay`. -/
def containsSub (hay needle : String) : Bool :=
  charsContain hay.toList needle.toList

/-- Python `str.strip()` (whitespace on both ends). -/
def stripStr (s : String) : String :=
  String.mk (((s.toList.dropWhile Char.isWhitespace).reverse.dropWhile
    Char.isWhitespace).reverse)

/-- Python `str.split(sep)` for a single-character separator, on character
lists (`"".split(sep)` gives `[""]`). -/
def splitChars (sep : Char) : List Char → List (List Char)
  | [] => [[]]
  | c :: cs =>
      let r := splitChars sep cs
      if c = sep then [] :: r
      else
        match r with
        | [] => [[c]]
        | g :: gs => (c :: g) :: gs

/-- Python `" ".join(strings)`. -/
def joinSpace : List String → String
  | [] => ""
  | [s] => s
  | s :: rest => s ++ " " ++ joinSpace rest

/-- Lexicographic (code-point) comparison of character lists — Python's `<`
on strings. -/
def charListLt : List Char → List Char → Bool
  | [], [] => false
  | [], _ :: _ => true
  | _ :: _, [] => false
  | a :: as, b :: bs =>
      if a < b then true else if b < a then false else charListLt as bs

/-- Python `a < b` on strings. -/
def strLt (a b : String) : Bool := charListLt a.toList b.toList

namespace Heuristic

/- Constants from nipoppy_ppmi/heuristic.py. -/

def DATATYPE_ANAT : String := "anat"
def DATATYPE_DWI : String := "dwi"
def SUFFIX_T1 : String := "T1w"
def SUFFIX_T2 : String := "T2w"
def SUFFIX_T2_STAR : String := "T2starw"
def SUFFIX_FLAIR : String := "FLAIR"
def SUFFIX_DWI : String := "dwi"

def MODALITY_DWI : String := "DTI"

def SEP_PROTOCOL_INFO_ENTRY : String := ";"
def SEP_PROTOCOL_INFO : String := "="
def KEY_PLANE : String := "Acquisition Plane"
def KEY_DIMS : String := "Acquisition Type"

def TAG_NEUROMELANIN : String := "NM"
def TAG_SAG : String := "sag"
def TAG_COR : String := "cor"
def TAG_AX : String := "ax"
def TAG_2D : String := "2D"
def TAG_3D : String := "3D"

def MAP_PLANE : List (String × String) :=
  [("SAGITTAL", TAG_SAG), ("CORONAL", TAG_COR), ("AXIAL", TAG_AX)]
def MAP_DIMS : List (String × String) := [("2D", TAG_2D), ("3D", TAG_3D)]
def TAGS_PLANE : List String := [TAG_SAG, TAG_COR, TAG_AX]
def TAGS_DIMS : List String := [TAG_2D, TAG_3D]

/-- `PATTERN_ITEM = "{item:02d}"` (braces written as escapes). -/
def PATTERN_ITEM : String := "\x7bitem:02d\x7d"

def DESCRIPTION_ACQ_MAP : List (String × String) :=
  [("DTI_B0_PA", "B0"), ("DTI_revB0_AP", "B0"), ("DTI_B700_64dir_PA", "B700"),
   ("DTI_B1000_64dir_PA", "B1000"), ("DTI_B2000_64dir_PA", "B2000")]

def DIR_DESCRIPTIONS_MAP : List (String × List String) :=
  [("LR", ["2D DTI EPI FAT SHIFT LEFT", "AX DTI 32 DIR FAT SHIFT L",
           "AX DTI 32 DIR FAT SHIFT L NO ANGLE", "AX DTI _reverse"]),
   ("RL", ["2D DTI EPI FAT SHIFT RIGHT", "AX DTI 32 DIR FAT SHIFT R",
           "AX DTI 32 DIR FAT SHIFT R NO ANGLE"])]

def VALID_DIRS : List String := ["AP", "PA", "LR", "RL"]

/-- `RE_NEUROMELANIN = "([nN][mM])|([gG][rR][eE].*[mM][tT])"`, used with
`re.search`: either "nm" occurs (case-insensitive), or "gre" occurs and "mt"
occurs at or after the end of that "gre" occurrence. -/
def nmSearch (description : String) : Bool :=
  let cs := lowerChars description.toList
  charsContain cs ['n', 'm'] ||
    (List.range cs.length).any (fun i =>
      (['g', 'r', 'e'].isPrefixOf (cs.drop i)) &&
        charsContain (cs.drop (i + 3)) ['m', 't'])

/-- Separator class `[ \-_]` of `DIR_RE_MAP`. -/
def isDirSep (c : Char) : Bool := c = ' ' || c = '-' || c = '_'

/-- Separator-or-arrow class `[ \-_>]` of `DIR_RE_MAP`. -/
def isDirSepArrow (c : Char) : Bool := isDirSep c || c = '>'

/-- One attempt of the `DIR_RE_MAP` regex
`[ \-_]d0[ \-_>]*d1(?:[ \-_]|\Z)` anchored at the head of `cs`.  The starred
class never contains `d1` (a letter), so the greedy run is deterministic. -/
def dirMatchAt (d0 d1 : Char) (cs : List Char) : Bool :=
  match cs with
  | c :: c0 :: rest =>
      isDirSep c && c0 = d0 &&
        (let tail := rest.dropWhile isDirSepArrow
         match tail with
         | [] => false
         | c1 :: rest' =>
             c1 = d1 && (match rest' with
                         | [] => true
                         | c2 :: _ => isDirSep c2))
  | _ => false

/-- `re.search` of one `DIR_RE_MAP` pattern over the description. -/
def dirSearch (d0 d1 : Char) (description : String) : Bool :=
  let cs := description.toList
  (List.range cs.length).any (fun i => dirMatchAt d0 d1 (cs.drop i))

/-- `get_dwi_acq_from_description`. -/
def get_dwi_acq_from_description (description : String) : Option String :=
  DESCRIPTION_ACQ_MAP.lookup description

/-- `get_dwi_dir_from_description`: hardcoded description strings first, then
the per-direction regexes, else `None`. -/
def get_dwi_dir_from_description (description : String) : Option String :=
  match DIR_DESCRIPTIONS_MAP.find? (fun p => p.2.contains description) with
  | some p => some p.1
  | none =>
      match VALID_DIRS.find? (fun d =>
        match d.toList with
        | [c0, c1] => dirSearch c0 c1 description
        | _ => false) with
      | some d => some d
      | none => none

/-- One row of the Heudiconv `seqinfo` consumed by `infotodict` (the fields the
heuristic reads). -/
structure SeqInfo where
  example_dcm_file : String
  series_id : String
  series_description : String
  series_files : Nat
  deriving Repr, DecidableEq

/-- One row of `HeuristicHelper.df_imaging` (indexed by `Image ID`): the
"Imaging Protocol" cell (`none` models NaN) and the "Modality" cell. -/
structure ImagingInfo where
  protocol : Option String
  modality : String
  deriving Repr, DecidableEq

/-- `HeuristicHelper`: the parsed descriptions map (anatomical suffix lists and
the dwi/func lists) and the imaging info table indexed by image ID. -/
structure HeuristicHelper where
  t1 : List String
  t2 : List String
  t2star : List String
  flair : List String
  dwi : List String
  func : List String
  imaging : List (String × ImagingInfo)

/-- The descriptions list for an anatomical suffix, as fetched by
`get_descriptions([DATATYPE_ANAT, suffix])`. -/
def HeuristicHelper.anatList (h : HeuristicHelper) (suffix : String) : List String :=
  if suffix = SUFFIX_T1 then h.t1
  else if suffix = SUFFIX_T2 then h.t2
  else if suffix = SUFFIX_T2_STAR then h.t2star
  else h.flair

/-- `HeuristicHelper.get_datatype_suffix_from_description`: strip the
description, walk `datatypes = [anat, dwi]`; for anat try the suffix lists in
order `[T1w, T2w, T2starw, FLAIR]` and return on the first hit; for dwi return
`(dwi, None)` on membership and otherwise raise `RuntimeError`. -/
def get_datatype_suffix_from_description (h : HeuristicHelper)
    (description : String) : Except String (String × Option String) :=
  let d := stripStr description
  if d ∈ h.t1 then .ok (DATATYPE_ANAT, some SUFFIX_T1)
  else if d ∈ h.t2 then .ok (DATATYPE_ANAT, some SUFFIX_T2)
  else if d ∈ h.t2star then .ok (DATATYPE_ANAT, some SUFFIX_T2_STAR)
  else if d ∈ h.flair then .ok (DATATYPE_ANAT, some SUFFIX_FLAIR)
  else if d ∈ h.dwi then .ok (DATATYPE_DWI, none)
  else .error ("Could not find datatype for description " ++ d)

/-- Parse the "Imaging Protocol" cell: split on `;`, split each entry on `=`
into exactly a key and a value (`ValueError` otherwise), build a dict whose
later entries win; a NaN cell yields the empty dict. -/
def parseProtocolInfo : Option String → Except String (List (String × String))
  | none => .ok []
  | some s =>
      (splitChars ';' s.toList).foldlM
        (fun acc entry =>
          match splitChars '=' entry with
          | [k, v] => .ok (acc ++ [(String.mk k, String.mk v)])
          | _ => .error ("ValueError: could not unpack protocol info entry "
              ++ String.mk entry))
        []

/-- Python dict lookup on the parsed protocol info (later entries override). -/
def dictLookup (d : List (String × String)) (key : String) : Option String :=
  d.reverse.lookup key

/-- The shared fallback of the dims and plane derivations: scan the tag list,
record a tag when it occurs (case-insensitively) in the description, and raise
`RuntimeError` as soon as a second, different tag is found. -/
def scanTags (tags : List String) (description : String) (what : String) :
    Except String (Option String) :=
  tags.foldlM
    (fun acc tag =>
      if containsCI description tag then
        match acc with
        | some _ => .error ("Found multiple " ++ what ++ " tags in description: "
            ++ description)
        | none => .ok (some tag)
      else .ok acc)
    none

/-- Dims derivation: `MAP_DIMS[protocol["Acquisition Type"]]`, falling back to
the description scan when the key or the mapping is absent. -/
def deriveDims (protocol : List (String × String)) (description : String) :
    Except String (Option String) :=
  match dictLookup protocol KEY_DIMS >>= MAP_DIMS.lookup with
  | some d => .ok (some d)
  | none => scanTags TAGS_DIMS description "dims"

/-- Plane derivation: `MAP_PLANE[protocol["Acquisition Plane"]]`, falling back
to the description scan when the key or the mapping is absent. -/
def derivePlane (protocol : List (String × String)) (description : String) :
    Except String (Option String) :=
  match dictLookup protocol KEY_PLANE >>= MAP_PLANE.lookup with
  | some p => .ok (some p)
  | none => scanTags TAGS_PLANE description "plane"

/-- `create_key`: the returned tuple's second and third components are the
constants `('nii.gz',)` and `None`, so the key is embedded as its template. -/
def create_key (datatype stem : String) : String :=
  "sub-\x7bsubject\x7d/\x7bsession\x7d/" ++ datatype ++ "/" ++ stem

/-- `create_key_anat`. -/
def create_key_anat (suffix : String) (plane dims acq : Option String) :
    Except String String := do
  if acq.isSome && (plane.isSome || dims.isSome) then
    throw "Cannot specify both acq and plane/dims"
  match plane, dims with
  | some p, some d =>
      pure (create_key DATATYPE_ANAT
        ("sub-\x7bsubject\x7d_\x7bsession\x7d_acq-" ++ p ++ d ++ "_run-"
          ++ PATTERN_ITEM ++ "_" ++ suffix))
  | _, _ =>
      match acq with
      | some a =>
          pure (create_key DATATYPE_ANAT
            ("sub-\x7bsubject\x7d_\x7bsession\x7d_acq-" ++ a ++ "_run-"
              ++ PATTERN_ITEM ++ "_" ++ suffix))
      | none =>
          pure (create_key DATATYPE_ANAT
            ("sub-\x7bsubject\x7d_\x7bsession\x7d_run-" ++ PATTERN_ITEM ++ "_"
              ++ suffix))

/-- `create_key_dwi`. -/
def create_key_dwi (suffix : String) (dir acq : Option String) : String :=
  let dirTag := match dir with | some d => "_dir-" ++ d | none => ""
  let acqTag := match acq with | some a => "_acq-" ++ a | none => ""
  create_key DATATYPE_DWI
    ("sub-\x7bsubject\x7d_\x7bsession\x7d" ++ acqTag ++ dirTag ++ "_run-"
      ++ PATTERN_ITEM ++ "_" ++ suffix)

/-- Tail check of `RE_IMAGE_ID = ".*_I([0-9]+).dcm"` after the digit group: one
arbitrary character (the unescaped `.`) followed by `dcm`. -/
def idTailCheck : List Char → Bool
  | _ :: 'd' :: 'c' :: 'm' :: _ => true
  | _ => false

/-- Backtracking over the greedy digit group `([0-9]+)`: `rds` is the reversed
list of digits currently consumed; each failed tail check gives the last digit
back to the tail, down to a single digit. -/
def tryDigitsRev : List Char → List Char → Option (List Char)
  | [], _ => none
  | d :: rds, tail =>
      if idTailCheck tail then (d :: rds).reverse else tryDigitsRev rds (d :: tail)

/-- One anchor attempt of `RE_IMAGE_ID` at the current position: `_I`, a
nonempty greedy digit run (with backtracking), then the tail check. -/
def matchIdAt : List Char → Option (List Char)
  | '_' :: 'I' :: rest =>
      let ds := rest.takeWhile Char.isDigit
      if ds.isEmpty then none else tryDigitsRev ds.reverse (rest.drop ds.length)
  | _ => none

/-- `get_image_id_from_dcm`: `re.match(".*_I([0-9]+).dcm", fname)` with the
greedy `.*` (latest anchor position wins), raising `RuntimeError` when nothing
matches.  The regex has a single group, so the more-than-one-group branch of
the source can never fire. -/
def get_image_id_from_dcm (fname : String) : Except String String :=
  let cs := fname.toList
  match (List.range (cs.length + 1)).reverse.findSome?
      (fun i => matchIdAt (cs.drop i)) with
  | some ds => .ok (String.mk ds)
  | none => .error ("Could not get image ID from " ++ fname)

/-- The condition of the forced sagittal-3D assignment of `infotodict`, with
Python's operator precedence:
`(dims is None) or ((plane is None) and (modality == MODALITY_DWI) and
(desc == "T1") and (files in [133, 184]))`. -/
def forcedSag3D (info : ImagingInfo) (s : SeqInfo) (dims plane : Option String) :
    Bool :=
  dims = none ∨
    (plane = none ∧ info.modality = MODALITY_DWI ∧
      s.series_description = "T1" ∧
      (s.series_files = 133 ∨ s.series_files = 184))

/-- The body of the `try` block of `infotodict` for one non-hardcoded record:
datatype/suffix lookup, imaging-info lookup by image ID (`KeyError` when the
ID is not in the table), protocol parsing, then the anat (neuromelanin or
dims/plane) and dwi branches.  The anat suffix is formatted into the template
exactly as Python would (`None` rendering for a missing suffix). -/
def classifyTry (h : HeuristicHelper) (s : SeqInfo) (image_id : String) :
    Except String String := do
  let ds ← get_datatype_suffix_from_description h s.series_description
  let info ← match h.imaging.lookup image_id with
    | some i => pure i
    | none => throw ("KeyError: " ++ image_id)
  let parsed ← parseProtocolInfo info.protocol
  if ds.1 = DATATYPE_ANAT then
    let suffixStr := match ds.2 with | some sfx => sfx | none => "None"
    if nmSearch s.series_description then
      create_key_anat suffixStr none none (some TAG_NEUROMELANIN)
    else do
      let dims ← deriveDims parsed s.series_description
      let plane ← derivePlane parsed s.series_description
      let dims' := if forcedSag3D info s dims plane then some TAG_3D else dims
      let plane' := if forcedSag3D info s dims plane then some TAG_SAG else plane
      create_key_anat suffixStr plane' dims' none
  else if ds.1 = DATATYPE_DWI then
    pure (create_key_dwi SUFFIX_DWI
      (get_dwi_dir_from_description s.series_description)
      (get_dwi_acq_from_description s.series_description))
  else
    throw ("Not implemented for datatype " ++ ds.1)

/-- Image IDs of the hardcoded T1-sagittal-3D overrides. -/
def hardcodedT1Ids : List String :=
  ["1609526", "1680311", "1196642", "1119726", "1120679", "1397807", "1397808"]

/-- One iteration of the `for` loop of `infotodict`: image-ID extraction (a
failure here is outside the `try` and kills the whole run), the hardcoded
overrides, then the classification `try` block whose exceptions are re-raised
with the image ID in testing mode and swallowed (record skipped, message
printed) otherwise.  The returned list holds the `(key, value)` appends made
to the `info` accumulator for this record. -/
def processRecord (h : HeuristicHelper) (testing : Bool) (s : SeqInfo) :
    Except String (List (String × String)) := do
  let image_id ← get_image_id_from_dcm s.example_dcm_file
  let to_append := if testing then image_id else s.series_id
  if hardcodedT1Ids.contains image_id || s.series_description = "sT1W_3D_TFE" then
    let key ← create_key_anat SUFFIX_T1 (some TAG_SAG) (some TAG_3D) none
    pure [(key, to_append)]
  else if image_id = "1609534" then
    let key ← create_key_anat SUFFIX_FLAIR (some TAG_SAG) (some TAG_3D) none
    pure [(key, to_append)]
  else if image_id = "1397805" then
    let key ← create_key_anat SUFFIX_T2 (some TAG_AX) (some TAG_2D) none
    pure [(key, to_append)]
  else if image_id = "1680316" || image_id = "1680317" then
    pure [(create_key_dwi SUFFIX_DWI none none, to_append)]
  else
    match classifyTry h s image_id with
    | .ok key => pure [(key, to_append)]
    | .error e =>
        if testing then
          throw ("ERROR in heuristic: " ++ e ++ " (image ID: " ++ image_id ++ ")")
        else
          pure []

/-- `infotodict`: fold `processRecord` over the records.  The `defaultdict`
accumulator groups appends by key; it is embedded as the flat, ordered list of
`(key, value)` appends, from which the per-key lists are recoverable. -/
def infotodict (h : HeuristicHelper) (testing : Bool) (recs : List SeqInfo) :
    Except String (List (String × String)) :=
  recs.foldlM (fun acc s => do pure (acc ++ (← processRecord h testing s))) []

/-- A small helper instance: one T1 description (`MYT1`), one T2 description
with two dims tags (`MYT2 2D 3D`), and imaging-info rows for image IDs `1`
(no protocol info, modality MRI) and `2` (sagittal plane, no acquisition
type, modality MRI). -/
def sampleHelper : HeuristicHelper :=
  ⟨["MYT1"], ["MYT2 2D 3D"], [], [], [], [],
   [("1", ⟨none, "MRI"⟩), ("2", ⟨some "Acquisition Plane=SAGITTAL", "MRI"⟩)]⟩

/-- A record (image ID `2`) whose plane derives to sagittal from the protocol
info while its dims derive to nothing, with a non-DTI modality. -/
def samplePlaneOnlyRecord : SeqInfo := ⟨"a_I2.dcm", "s2", "MYT1", 10⟩

/-- A record (image ID `1`) whose description carries both dims tags. -/
def sampleAmbiguousRecord : SeqInfo := ⟨"a_I1.dcm", "s1", "MYT2 2D 3D", 10⟩

end Heuristic

/-- `drop_duplicates` / first-occurrence deduplication. -/
def dedupFirst {α : Type} [DecidableEq α] : List α → List α
  | [] => []
  | a :: l => a :: (dedupFirst l).filter (fun b => b ≠ a)

/-- A float cell, embedded as the exact rational `num / den` (`den > 0` for
all values built here).  The data's float values and the operations the
filters apply to them (comparison, maximum, sum, division by a count) are
exact on these small dyadic rationals, so the embedding carries them as
unnormalised fractions — value-equal to `ℚ` through `PyF.toRat` but with
kernel-computable arithmetic. -/
structure PyF where
  num : Int
  den : Int
  deriving Repr, DecidableEq

namespace PyF

/-- The rational value of the fraction. -/
def toRat (a : PyF) : ℚ := (a.num : ℚ) / (a.den : ℚ)

/-- A whole number. -/
def ofInt (n : Int) : PyF := ⟨n, 1⟩

/-- Value comparison `a <= b` (denominators positive). -/
def le (a b : PyF) : Bool := a.num * b.den ≤ b.num * a.den

/-- Python `==` on float values. -/
def eqv (a b : PyF) : Bool := a.num * b.den = b.num * a.den

/-- Value addition. -/
def add (a b : PyF) : PyF := ⟨a.num * b.den + b.num * a.den, a.den * b.den⟩

/-- Division by a (positive) count. -/
def divNat (a : PyF) (n : Nat) : PyF := ⟨a.num, a.den * (n : Int)⟩

/-- Binary maximum by value. -/
def vmax (a b : PyF) : PyF := if le a b then b else a

/-- Sum of a list of values. -/
def lsum (l : List PyF) : PyF := l.foldl add (ofInt 0)

end PyF

namespace TabularFilters

/-- The columns of the UPDRS-III source read by `updrs3_on_off_splitter`
(`df[cols].itertuples`).  `float(updrs3)` is embedded by carrying the motor
score as the exact fraction it denotes. -/
structure UpdrsRow where
  patno : String
  event_id : String
  pdstate : String
  pag_name : String
  pdtrtmnt : String
  np3tot : PyF
  deriving Repr, DecidableEq

/-- The per-row bucket decision of `updrs3_on_off_splitter`: `target_col`
starts as OFF and is flipped to ON by the decision ladder.  Returns `true` for
the ON bucket. -/
def updrsTargetIsOn (pd_state page pd_treatment : String) : Bool :=
  if pd_state = "ON" then true
  else if pd_treatment ≠ "0" && pd_state ≠ "OFF" then
    if page = "NUPDR3ON" then true
    else if page ≠ "NUPDR3OF" then pd_treatment = "1"
    else false
  else false

/-- One output row of the splitter: the two new columns are NaN (`none`) when
no row of the group fell into the corresponding bucket. -/
structure OnOffRow where
  patno : String
  event_id : String
  np3tot_off : Option PyF
  np3tot_on : Option PyF
  deriving Repr, DecidableEq

/-- `groupby(...).max()` over one bucket: pandas `max` skips NaN, and a group
whose bucket column is all-NaN yields NaN. -/
def maxQ : List PyF → Option PyF
  | [] => none
  | a :: l => some (l.foldl PyF.vmax a)

/-- Lexicographic comparison of `(PATNO, EVENT_ID)` group keys (pandas
`groupby` sorts group keys). -/
def pairLe (p q : String × String) : Bool :=
  strLt p.1 q.1 || (p.1 = q.1 && (strLt p.2 q.2 || p.2 = q.2))

/-- `updrs3_on_off_splitter`: tag each row with its bucket, then group by
`(PATNO, EVENT_ID)` (sorted keys) taking the per-bucket maximum. -/
def updrs3_on_off_splitter (rows : List UpdrsRow) : List OnOffRow :=
  let keys := (dedupFirst (rows.map (fun r => (r.patno, r.event_id)))).insertionSort
    (fun p q => pairLe p q)
  keys.map (fun k =>
    let grp := rows.filter (fun r => r.patno = k.1 && r.event_id = k.2)
    let ons := (grp.filter
      (fun r => updrsTargetIsOn r.pdstate r.pag_name r.pdtrtmnt)).map (·.np3tot)
    let offs := (grp.filter
      (fun r => !updrsTargetIsOn r.pdstate r.pag_name r.pdtrtmnt)).map (·.np3tot)
    ⟨k.1, k.2, maxQ offs, maxQ ons⟩)

/-- One input row of `age_filter` (`AGE_AT_VISIT` after `astype(float)`). -/
structure AgeRow where
  patno : String
  event_id : String
  age : PyF
  deriving Repr, DecidableEq

/-- One output row of `age_filter`: a reconciled age is NaN (`none`) when all
duplicates were discarded (mean of an empty selection). -/
structure AgeOutRow where
  patno : String
  event_id : String
  age : Option PyF
  deriving Repr, DecidableEq

/-- `visit_sort_key`: SC before BL before the embedded-digit number;
`int("".join(...))` raises `ValueError` when the visit has no digit. -/
def visit_sort_key (visit : String) : Except String Int :=
  if visit = "SC" then .ok (-10)
  else if visit = "BL" then .ok (-5)
  else
    let ds := visit.toList.filter Char.isDigit
    if ds.isEmpty then .error ("ValueError: invalid literal for int(): " ++ visit)
    else .ok (Int.ofNat (ds.foldl (fun n c => 10 * n + (c.toNat - 48)) 0))

/-- `visit_is_before_or_same`. -/
def visit_is_before_or_same (visit1 visit2 : String) : Except String Bool := do
  let k1 ← visit_sort_key visit1
  let k2 ← visit_sort_key visit2
  pure (k1 ≤ k2)

/-- The `(PATNO, EVENT_ID)` keys having more than one age row, in sorted
order (pandas `groupby` count/index order). -/
def ageDupKeys (rows : List AgeRow) : List (String × String) :=
  ((dedupFirst (rows.map (fun r => (r.patno, r.event_id)))).filter
    (fun k => 1 < rows.countP (fun r => r.patno = k.1 && r.event_id = k.2))).insertionSort
    (fun p q => pairLe p q)

/-- Python `int(s)` on a subject ID, restricted to the plain digit strings the
data uses (`none` models `ValueError`). -/
def pyInt (s : String) : Option Int :=
  if s ≠ "" && s.toList.all Char.isDigit then
    some (Int.ofNat (s.toList.foldl (fun n c => 10 * n + (c.toNat - 48)) 0))
  else none

/-- `_subject_sort_key` applied column-wise by the final
`sort_values(by=[PATNO, EVENT_ID], key=_subject_sort_key)`: a column is
compared as integers when every value coerces, else as strings. -/
def intCmp (a b : Int) : Ordering :=
  if a < b then .lt else if b < a then .gt else .eq

def strCmp (a b : String) : Ordering :=
  if strLt a b then .lt else if strLt b a then .gt else .eq

def ageOutLe (rows : List AgeOutRow) (r1 r2 : AgeOutRow) : Bool :=
  let patInt := rows.all (fun r => (pyInt r.patno).isSome)
  let evInt := rows.all (fun r => (pyInt r.event_id).isSome)
  let patOrd : Ordering :=
    if patInt then intCmp ((pyInt r1.patno).getD 0) ((pyInt r2.patno).getD 0)
    else strCmp r1.patno r2.patno
  let evOrd : Ordering :=
    if evInt then intCmp ((pyInt r1.event_id).getD 0) ((pyInt r2.event_id).getD 0)
    else strCmp r1.event_id r2.event_id
  match patOrd with
  | .lt => true
  | .gt => false
  | .eq => evOrd ≠ .gt

/-- `age_filter`: drop every row of a duplicated `(PATNO, EVENT_ID)` key, then
re-insert one row per such key whose age is the mean of the duplicate ages
that are not "bad" — a duplicate age being bad when it is `>=` the age of some
row of the same subject at a different visit whose sort key is `>=` the
current visit's — and finally sort by subject then visit.  All sort keys are
distinct, so the unstable pandas sort is deterministic here. -/
def age_filter (rows : List AgeRow) : Except String (List AgeOutRow) := do
  let dupKeys := ageDupKeys rows
  let keep := (rows.filter
    (fun r => !(dupKeys.contains (r.patno, r.event_id)))).map
    (fun r => (⟨r.patno, r.event_id, some r.age⟩ : AgeOutRow))
  let fixed ← dupKeys.mapM (fun k => do
    let dups := (rows.filter (fun r => r.patno = k.1 && r.event_id = k.2)).map (·.age)
    let others := rows.filter (fun r => r.patno = k.1 && r.event_id ≠ k.2)
    let bad ← dups.foldlM (fun (acc : List PyF) a => do
      let flags ← others.mapM (fun o => do
        let b ← visit_is_before_or_same k.2 o.event_id
        pure (b && PyF.le o.age a))
      pure (if flags.any id then acc ++ [a] else acc)) []
    let survivors := dups.filter (fun a => !(bad.any (fun b => PyF.eqv a b)))
    let m : Option PyF :=
      if survivors.isEmpty then none
      else some ((PyF.lsum survivors).divNat survivors.length)
    pure (⟨k.1, k.2, m⟩ : AgeOutRow))
  let all := keep ++ fixed
  pure (all.insertionSort (fun r1 r2 => ageOutLe all r1 r2))

end TabularFilters

namespace TabularUtils

/-- A cell of a tabular frame; `none` models NaN.  pandas merges treat NaN
join keys as equal, so key comparison is plain `Option` equality. -/
abbrev Cell := Option String

/-- NaN padding for the value columns a merge fails to match. -/
def pad (n : Nat) : List Cell := List.replicate n none

/-- A row of a subject-and-visit keyed frame: the canonical participant and
visit key cells followed by the value columns. -/
structure NSRow where
  pid : Cell
  vid : Cell
  vals : List Cell
  deriving Repr, DecidableEq

/-- A subject-and-visit keyed frame with its value-column count. -/
structure NSDF where
  nvals : Nat
  rows : List NSRow
  deriving Repr, DecidableEq

/-- A row of a subject-keyed (static) frame. -/
structure SRow where
  pid : Cell
  vals : List Cell
  deriving Repr, DecidableEq

/-- A subject-keyed (static) frame with its value-column count. -/
structure SDF where
  nvals : Nat
  rows : List SRow
  deriving Repr, DecidableEq

/-- `pd.merge(L, R, on=[participant_id, visit_id], how="outer")`: matched key
pairs combine (cartesian on duplicate keys), unmatched left rows pad the right
value columns with NaN, unmatched right rows pad the left ones. -/
def mergeOuterNS (L R : NSDF) : NSDF where
  nvals := L.nvals + R.nvals
  rows :=
    (L.rows.flatMap (fun l =>
      let ms := R.rows.filter (fun r => r.pid = l.pid && r.vid = l.vid)
      if ms.isEmpty then [⟨l.pid, l.vid, l.vals ++ pad R.nvals⟩]
      else ms.map (fun r => ⟨l.pid, l.vid, l.vals ++ r.vals⟩)))
    ++ ((R.rows.filter (fun r =>
          !(L.rows.any (fun l => l.pid = r.pid && l.vid = r.vid)))).map
        (fun r => ⟨r.pid, r.vid, pad L.nvals ++ r.vals⟩))

/-- `pd.merge(L, R, on=[participant_id, visit_id], how="inner")`. -/
def mergeInnerNS (L R : NSDF) : NSDF where
  nvals := L.nvals + R.nvals
  rows :=
    L.rows.flatMap (fun l =>
      (R.rows.filter (fun r => r.pid = l.pid && r.vid = l.vid)).map
        (fun r => ⟨l.pid, l.vid, l.vals ++ r.vals⟩))

/-- `pd.merge(L, R, on=[participant_id], how="outer")` of a subject-and-visit
keyed left frame with a static right frame: unmatched right rows carry NaN for
the left frame's visit and value columns. -/
def mergeOuterPid (L : NSDF) (R : SDF) : NSDF where
  nvals := L.nvals + R.nvals
  rows :=
    (L.rows.flatMap (fun l =>
      let ms := R.rows.filter (fun r => r.pid = l.pid)
      if ms.isEmpty then [⟨l.pid, l.vid, l.vals ++ pad R.nvals⟩]
      else ms.map (fun r => ⟨l.pid, l.vid, l.vals ++ r.vals⟩)))
    ++ ((R.rows.filter (fun r => !(L.rows.any (fun l => l.pid = r.pid)))).map
        (fun r => ⟨r.pid, none, pad L.nvals ++ r.vals⟩))

/-- `pd.merge` on `[participant_id]`, `how="outer"`, of two static frames. -/
def mergeOuterS (L R : SDF) : SDF where
  nvals := L.nvals + R.nvals
  rows :=
    (L.rows.flatMap (fun l =>
      let ms := R.rows.filter (fun r => r.pid = l.pid)
      if ms.isEmpty then [⟨l.pid, l.vals ++ pad R.nvals⟩]
      else ms.map (fun r => ⟨l.pid, l.vals ++ r.vals⟩)))
    ++ ((R.rows.filter (fun r => !(L.rows.any (fun l => l.pid = r.pid)))).map
        (fun r => ⟨r.pid, pad L.nvals ++ r.vals⟩))

/-- `merge_df_list` for the non-static group: `None` for no frame, the frame
itself for a single one, else the left fold of outer merges. -/
def merge_df_list_ns : List NSDF → Option NSDF
  | [] => none
  | d :: ds => some (ds.foldl mergeOuterNS d)

/-- `merge_df_list` for the static group. -/
def merge_df_list_s : List SDF → Option SDF
  | [] => none
  | d :: ds => some (ds.foldl mergeOuterS d)

/-- One entry of the `info_dict` of `get_tabular_info` after `load_tabular_df`
has run: the raw `IS_STATIC` string of the config and the loaded frame,
already renamed and cut down to one value column (file I/O, the loading hook
and the column renames happen upstream of the logic under proof). -/
structure SourceSpec where
  is_static_str : String
  rows : List NSRow
  deriving Repr, DecidableEq

/-- `col_info["IS_STATIC"].lower() in ["true", "1", "yes"]`. -/
def SourceSpec.isStatic (sp : SourceSpec) : Bool :=
  ["true", "1", "yes"].contains (String.mk (lowerChars sp.is_static_str.toList))

/-- The visit filter of `load_tabular_df`: applied only to non-static sources
(`visits=None` is passed for static ones); `isin` is false on a NaN visit. -/
def specFrame (visits : Option (List String)) (sp : SourceSpec) : List NSRow :=
  if sp.isStatic then sp.rows
  else
    match visits with
    | none => sp.rows
    | some vs =>
        sp.rows.filter (fun r => match r.vid with
          | some v => vs.contains v
          | none => false)

/-- `get_tabular_info`: split the specs into static and non-static groups
(static frames keep `[participant_id, value]` only) and outer-merge each
group.  The single-row-per-subject sanity warning has no semantic effect and
is omitted. -/
def get_tabular_info (visits : Option (List String)) (specs : List SourceSpec) :
    Option SDF × Option NSDF :=
  let statics := (specs.filter (fun sp => sp.isStatic)).map
    (fun sp => (⟨1, (specFrame visits sp).map (fun r => ⟨r.pid, r.vals⟩)⟩ : SDF))
  let nonstatics := (specs.filter (fun sp => !sp.isStatic)).map
    (fun sp => (⟨1, specFrame visits sp⟩ : NSDF))
  (merge_df_list_s statics, merge_df_list_ns nonstatics)

/-- `get_tabular_info_and_merge`: fatal when no non-static frame exists;
returns the non-static frame untouched when no static frame exists; otherwise
outer-merges the manifest (or, when none is supplied, the non-static frame's
own `[participant_id, visit_id]` projection) onto each side and inner-merges
static onto non-static.  `merge_and_check` differs from a plain merge only by
a warning on indicator mismatches, which has no semantic effect. -/
def get_tabular_info_and_merge (visits : Option (List String))
    (specs : List SourceSpec) (df_manifest : Option NSDF) :
    Except String NSDF :=
  match get_tabular_info visits specs with
  | (_, none) =>
      .error "At least one dataframe must contain both subject and visit information"
  | (none, some dfN) => .ok dfN
  | (some dfS, some dfN) =>
      let m : NSDF := match df_manifest with
        | some m => m
        | none => ⟨0, dfN.rows.map (fun r => ⟨r.pid, r.vid, []⟩)⟩
      let dfN' := mergeOuterNS m dfN
      let dfS' := mergeOuterPid m dfS
      .ok (mergeInnerNS dfS' dfN')

/-- Number of rows of a frame carrying a given `(participant_id, visit_id)`
pair. -/
def countPair (rows : List NSRow) (p : Cell × Cell) : Nat :=
  rows.countP (fun r => r.pid = p.1 && r.vid = p.2)

/-- Number of rows of a subject-and-visit frame carrying a given
participant. -/
def countPid (rows : List NSRow) (c : Cell) : Nat :=
  rows.countP (fun r => r.pid = c)

/-- Number of rows of a static frame carrying a given participant. -/
def countPidS (rows : List SRow) (c : Cell) : Nat :=
  rows.countP (fun r => r.pid = c)

/-- The static values merged for a participant: the unique static row's
values, or NaN padding when the participant has no static row. -/
def staticLookup (S : SDF) (c : Cell) : List Cell :=
  match S.rows.find? (fun r => r.pid = c) with
  | some r => r.vals
  | none => pad S.nvals

/-- The slice of a merged row's values holding the static columns (they sit
between the manifest's value columns and the non-static ones). -/
def staticSlice (mN sN : Nat) (r : NSRow) : List Cell :=
  (r.vals.drop mN).take sN

/-- The value-column count of the manifest argument (0 when the manifest is
derived from the non-static frame's key projection). -/
def manifestNvals : Option NSDF → Nat
  | some m => m.nvals
  | none => 0

end TabularUtils

namespace GenerateManifest

/-- One manifest row: the participant and session key cells (the diff against
the old manifest is keyed on `(participant_id, session_id)`) and the
remaining columns cast to strings. -/
structure MRow where
  participant_id : Option String
  session_id : Option String
  rest : List (Option String)
  deriving Repr, DecidableEq

/-- Key equality for the subject/session pair diff. -/
def pairEq (a b : MRow) : Bool :=
  a.participant_id = b.participant_id && a.session_id = b.session_id

/-- The "only keep new subject/session pairs" block of
`ManifestWorkflow.run_main`: with `regenerate` unset and an existing old
manifest, raise when an old `(participant_id, session_id)` pair is absent
from the newly computed manifest, else append the genuinely new rows to the
old manifest; otherwise keep the newly computed manifest. -/
def keepNewPairsStep (regenerate : Bool) (old : Option (List MRow))
    (newManifest : List MRow) : Except String (List MRow) :=
  match old, regenerate with
  | some oldRows, false =>
      if oldRows.any (fun r => ¬ newManifest.any (fun n => pairEq n r)) then
        .error ("Some of the subject/session pairs in the old manifest do not"
          ++ " seem to exist anymore")
      else
        .ok (oldRows ++ newManifest.filter
          (fun n => ¬ oldRows.any (fun r => pairEq r n)))
  | _, _ => .ok newManifest

/-- The tail of `run_main` from the diff block to the saved table: the diff
step followed by the string-cast `drop_duplicates` (first occurrence kept).
The external `Manifest(...).validate().sort_values()` of the nipoppy library
only reorders or rejects rows, never drops subject/session pairs, and is not
part of this repository; it is left out of the embedding. -/
def manifestRunTail (regenerate : Bool) (old : Option (List MRow))
    (newManifest : List MRow) : Except String (List MRow) := do
  let merged ← keepNewPairsStep regenerate old newManifest
  pure (dedupFirst merged)

/-- The `(participant_id, session_id)` pairs of a manifest. -/
def pairsOf (rows : List MRow) : List (Option String × Option String) :=
  rows.map (fun r => (r.participant_id, r.session_id))

end GenerateManifest

namespace TabularTracker

/-- One row of the merged bagel of `GenerateTabularBagelWorkflow.run_main`
after the `bids_participant_id` insertion: the three key cells named by
`Manifest.index_cols` plus the value columns (aligned with `BagelDF.valCols`).
-/
structure BagelRow where
  bids_participant_id : Option String
  participant_id : Option String
  visit_id : Option String
  vals : List (Option String)
  deriving Repr, DecidableEq

/-- The merged bagel frame with the names of its value columns. -/
structure BagelDF where
  valCols : List String
  rows : List BagelRow
  deriving Repr, DecidableEq

/-- Modelled from the spec: `Manifest.index_cols` lives in the external
nipoppy library; per the spec the duplicate check is keyed on
`(bids_participant_id, participant_id, visit_id)`.  This is the row's key
tuple in that order. -/
def indexColsValues (r : BagelRow) : List (Option String) :=
  [r.bids_participant_id, r.participant_id, r.visit_id]

/-- The key-triple of a bagel row. -/
def keyTriple (r : BagelRow) :
    Option String × Option String × Option String :=
  (r.bids_participant_id, r.participant_id, r.visit_id)

/-- `" ".join(df.dropna().astype(str).values)` applied to one row's key cells:
NaN cells are dropped, the rest joined with single spaces. -/
def joinKey (r : BagelRow) : String :=
  joinSpace ((indexColsValues r).filterMap id)

/-- Modelled from the spec: `session_id_to_bids_session_id` of the external
nipoppy library prefixes the session with `ses-`. -/
def sessionToBids : Option String → Option String
  | some s => some ("ses-" ++ s)
  | none => none

/-- One row of the melted dashboard bagel. -/
structure DashRow where
  bids_id : Option String
  participant_id : Option String
  session : Option String
  assessment_name : String
  assessment_score : Option String
  deriving Repr, DecidableEq

/-- `pd.melt` with the three key columns as `id_vars`, followed by the rename
and the session prefixing: one long row per value column per bagel row. -/
def meltDash (df : BagelDF) : List DashRow :=
  df.valCols.enum.flatMap (fun ic =>
    df.rows.map (fun r =>
      ⟨r.bids_participant_id, r.participant_id, sessionToBids r.visit_id,
        ic.2, r.vals.getD ic.1 none⟩))

/-- The observable outcome of the duplicate check and save steps of
`run_main`: `failure` is the `RuntimeError` raised after the offending rows
were exported to the `bagel_duplicates.csv` side file and before either
output file is written; `success` carries the bagel and dashboard-bagel
contents handed to `save_df_with_backup`. -/
inductive BagelOutcome
  | failure (exported : List BagelRow)
  | success (bagel : List BagelRow) (dash : List DashRow)
  deriving Repr, DecidableEq

/-- The duplicate check of `run_main`: compute the joined key string per row,
fail when some key string occurs more than once (exporting every row with a
duplicated key string), else proceed to the two saves. -/
def bagelCheckAndSave (df : BagelDF) : BagelOutcome :=
  let keys := df.rows.map joinKey
  if df.rows.any (fun r => 1 < keys.count (joinKey r)) then
    .failure (df.rows.filter (fun r => 1 < keys.count (joinKey r)))
  else
    .success df.rows (meltDash df)

end TabularTracker

namespace FilterDescriptions

/-- Python `re` interpretation of one pattern fragment of the filter
configuration: every configured entry is a concatenation of ordinary
characters and backslash escapes `\c` (such as `t2\*`, whose escape `\*`
matches the literal character `*`), and such a fragment matches exactly the
literal text obtained by dropping the backslashes. -/
def unescapeRe : List Char → List Char
  | [] => []
  | '\\' :: c :: rest => c :: unescapeRe rest
  | c :: rest => c :: unescapeRe rest

/-- `Series.str.lower().str.contains("|".join(entries).lower())`: a regex
search of the lowered alternation.  The configured entries contain no regex
metacharacters other than backslash escapes, so the alternation matches a
string exactly when the unescaped text of some entry occurs in it
case-insensitively; the empty join (empty pattern) matches every string. -/
def strContainsJoined (entries : List String) (s : String) : Bool :=
  entries.isEmpty ||
    entries.any (fun e => containsCI s (String.mk (unescapeRe e.toList)))

/-- The reject step of `FilterImageDescriptionsWorkflow._filter_descriptions`
(`if reject_substrings is not None and len(...) > 0`): descriptions matching
an exception substring are set aside, descriptions matching a reject
substring are dropped, and the set-aside descriptions are concatenated back
with index duplicates removed (first occurrence kept). -/
def rejectStep (descriptions : List String)
    (reject_substrings reject_substrings_exceptions : Option (List String)) :
    List String :=
  match reject_substrings with
  | none => descriptions
  | some rs =>
      if rs.isEmpty then descriptions
      else
        let descriptions_keep := match reject_substrings_exceptions with
          | some ex => descriptions.filter (fun d => strContainsJoined ex d)
          | none => []
        let survivors := descriptions.filter (fun d => !(strContainsJoined rs d))
        dedupFirst (survivors ++ descriptions_keep)

/-- `REJECT_SUBSTRINGS_ANAT` from imaging_filters.py: the 2D/phantom tags plus
the DWI and FUNC common substrings. -/
def REJECT_SUBSTRINGS_ANAT : List String :=
  ["2d", "phantom"] ++ ["dti", "dw", "DT_SSh_iso"] ++ ["fmri", "bold", "rsmri"]

/-- The `reject_substrings` configured for the T1 filter. -/
def rejectSubstringsT1 : List String :=
  REJECT_SUBSTRINGS_ANAT ++ ["t2"] ++ ["t2_star", "t2\\*"] ++ ["flair"]

/-- The `reject_substrings_exceptions` configured for the T1 filter. -/
def rejectExceptionsT1 : List String :=
  ["T1 REPEAT2", "2D GRE-NM", "2D GRE-NMMT", "2D GRE-NM_MT", "2D GRE - MT",
   "2D GRE MT", "2D GRE MT MTC-NO", "2D GRE-MT", "2D GRE-MT 1", "2D GRE-MT 2",
   "2D GRE-MT 3", "2D GRE-MT 4", "2D GRE-MT 5", "2D GRE-MT Q9R1007332",
   "2D GRE-MT_ACPC", "2D GRE-MT_RPT2", "2D GRE_MT", "2D-GRE MT", "2D-GRE-MT",
   "2DGRE-MT", "2D_GRE-MT", "2D_GRE_MT", "AX 2D GRE-MT", "AXIAL 2D GRE-MT",
   "LOWER 2D GRE MT"]

/-- `COMMON_SUBSTRINGS_ANAT_T1` from imaging_filters.py. -/
def commonSubstringsT1 : List String := ["t1", "mprage", "nm"]

/-- The `reject_substrings` configured for the T2 filter (which has no
`reject_substrings_exceptions`). -/
def rejectSubstringsT2 : List String :=
  REJECT_SUBSTRINGS_ANAT ++ commonSubstringsT1 ++ ["t2_star", "t2\\*"] ++
    ["flair"]

end FilterDescriptions

/-! ## Proof infrastructure -/

theorem exceptBind_ok {α β : Type} (a : α) (f : α → Except String β) :
    (Except.ok a : Except String α) >>= f = f a := rfl

theorem exceptBind_err {α β : Type} (e : String) (f : α → Except String β) :
    (Except.error e : Except String α) >>= f = .error e := rfl

theorem mem_dedupFirst {α : Type} [DecidableEq α] (a : α) :
    ∀ l : List α, a ∈ dedupFirst l ↔ a ∈ l := by
  intro l
  induction l with
  | nil => simp [dedupFirst]
  | cons b l ih =>
      simp only [dedupFirst, List.mem_cons, List.mem_filter]
      constructor
      · rintro (rfl | ⟨h, _⟩)
        · exact Or.inl rfl
        · exact Or.inr (ih.mp h)
      · rintro (rfl | h)
        · exact Or.inl rfl
        · by_cases hba : a = b
          · exact Or.inl hba
          · exact Or.inr ⟨ih.mpr h, by simpa using hba⟩

/-! ## Claim C10 -/

/-- C10: `get_datatype_suffix_from_description` strips the description, checks
the anatomical suffix lists in the fixed order T1w, T2w, T2starw, FLAIR and
returns `(anat, suffix)` for the first list containing it; a description
absent from all anatomical lists and from the dwi list raises a
`RuntimeError`; and the datatype `func` is never returned, whatever the
descriptions map holds. -/
theorem claim_C10_reverse_lookup :
    (∀ (h : Heuristic.HeuristicHelper) (d : String),
      stripStr d ∈ h.t1 →
        Heuristic.get_datatype_suffix_from_description h d =
          .ok (Heuristic.DATATYPE_ANAT, some Heuristic.SUFFIX_T1)) ∧
    (∀ (h : Heuristic.HeuristicHelper) (d : String),
      stripStr d ∉ h.t1 → stripStr d ∈ h.t2 →
        Heuristic.get_datatype_suffix_from_description h d =
          .ok (Heuristic.DATATYPE_ANAT, some Heuristic.SUFFIX_T2)) ∧
    (∀ (h : Heuristic.HeuristicHelper) (d : String),
      stripStr d ∉ h.t1 → stripStr d ∉ h.t2 → stripStr d ∈ h.t2star →
        Heuristic.get_datatype_suffix_from_description h d =
          .ok (Heuristic.DATATYPE_ANAT, some Heuristic.SUFFIX_T2_STAR)) ∧
    (∀ (h : Heuristic.HeuristicHelper) (d : String),
      stripStr d ∉ h.t1 → stripStr d ∉ h.t2 → stripStr d ∉ h.t2star →
      stripStr d ∈ h.flair →
        Heuristic.get_datatype_suffix_from_description h d =
          .ok (Heuristic.DATATYPE_ANAT, some Heuristic.SUFFIX_FLAIR)) ∧
    (∀ (h : Heuristic.HeuristicHelper) (d : String),
      stripStr d ∉ h.t1 → stripStr d ∉ h.t2 → stripStr d ∉ h.t2star →
      stripStr d ∉ h.flair → stripStr d ∉ h.dwi →
        Heuristic.get_datatype_suffix_from_description h d =
          .error ("Could not find datatype for description " ++ stripStr d)) ∧
    (∀ (h : Heuristic.HeuristicHelper) (d : String) (x : Option String),
      Heuristic.get_datatype_suffix_from_description h d ≠ .ok ("func", x)) := by
  refine ⟨?_, ?_, ?_, ?_, ?_, ?_⟩
  · intro h d h1
    simp [Heuristic.get_datatype_suffix_from_description, h1]
  · intro h d h1 h2
    simp [Heuristic.get_datatype_suffix_from_description, h1, h2]
  · intro h d h1 h2 h3
    simp [Heuristic.get_datatype_suffix_from_description, h1, h2, h3]
  · intro h d h1 h2 h3 h4
    simp [Heuristic.get_datatype_suffix_from_description, h1, h2, h3, h4]
  · intro h d h1 h2 h3 h4 h5
    simp [Heuristic.get_datatype_suffix_from_description, h1, h2, h3, h4, h5]
  · intro h d x
    simp only [Heuristic.get_datatype_suffix_from_description]
    split
    · simp [Heuristic.DATATYPE_ANAT]
    split
    · simp [Heuristic.DATATYPE_ANAT]
    split
    · simp [Heuristic.DATATYPE_ANAT]
    split
    · simp [Heuristic.DATATYPE_ANAT]
    split
    · simp [Heuristic.DATATYPE_DWI]
    · simp

/-- Witness for C10 at concrete inputs: the first-list priority, the
`RuntimeError` case, and the never-func guarantee. -/
theorem claim_C10_reverse_lookup_witness :
    Heuristic.get_datatype_suffix_from_description
        ⟨["A"], ["B"], [], [], ["D"], ["F"], []⟩ " A " =
      .ok (Heuristic.DATATYPE_ANAT, some Heuristic.SUFFIX_T1) ∧
    Heuristic.get_datatype_suffix_from_description
        ⟨["A"], ["B"], [], [], ["D"], ["F"], []⟩ "F" =
      .error ("Could not find datatype for description " ++ "F") ∧
    Heuristic.get_datatype_suffix_from_description
        ⟨["A"], ["B"], [], [], ["D"], ["F"], []⟩ "F" ≠ .ok ("func", none) := by
  refine ⟨?_, ?_, ?_⟩
  · exact claim_C10_reverse_lookup.1 ⟨["A"], ["B"], [], [], ["D"], ["F"], []⟩
      " A " (by decide)
  · exact claim_C10_reverse_lookup.2.2.2.2.1 ⟨["A"], ["B"], [], [], ["D"], ["F"], []⟩
      "F" (by decide) (by decide) (by decide) (by decide) (by decide)
  · exact claim_C10_reverse_lookup.2.2.2.2.2 ⟨["A"], ["B"], [], [], ["D"], ["F"], []⟩
      "F" none

/-! ## Claim C1 -/

/-- C1 (amended): for an anatomical, non-neuromelanin record whose dims and
plane derivations succeed, the forced `dims=3D, plane=sag` assignment happens
exactly when `dims` could not be derived OR (`plane` could not be derived AND
the modality is DTI AND the description is exactly "T1" AND the file count is
133 or 184) — Python's `or`/`and` precedence — and otherwise the derived
(possibly absent) values are used as-is. -/
theorem claim_C1_forced_sag3d (h : Heuristic.HeuristicHelper)
    (s : Heuristic.SeqInfo) (image_id : String) (info : Heuristic.ImagingInfo)
    (parsed : List (String × String)) (sfx : String)
    (dims plane : Option String)
    (h1 : Heuristic.get_datatype_suffix_from_description h s.series_description
      = .ok (Heuristic.DATATYPE_ANAT, some sfx))
    (h2 : h.imaging.lookup image_id = some info)
    (h3 : Heuristic.parseProtocolInfo info.protocol = .ok parsed)
    (h4 : Heuristic.nmSearch s.series_description = false)
    (h5 : Heuristic.deriveDims parsed s.series_description = .ok dims)
    (h6 : Heuristic.derivePlane parsed s.series_description = .ok plane) :
    Heuristic.classifyTry h s image_id =
      Heuristic.create_key_anat sfx
        (if Heuristic.forcedSag3D info s dims plane then some Heuristic.TAG_SAG
         else plane)
        (if Heuristic.forcedSag3D info s dims plane then some Heuristic.TAG_3D
         else dims)
        none
    ∧ (Heuristic.forcedSag3D info s dims plane = true ↔
        (dims = none ∨
          (plane = none ∧ info.modality = Heuristic.MODALITY_DWI ∧
            s.series_description = "T1" ∧
            (s.series_files = 133 ∨ s.series_files = 184)))) := by
  constructor
  · simp [Heuristic.classifyTry, h1, h2, h3, h4, h5, h6, exceptBind_ok,
      Heuristic.DATATYPE_ANAT]
  · simp [Heuristic.forcedSag3D]

/-- Counterexample to C1 as stated: for the record `samplePlaneOnlyRecord`
(anatomical T1, non-neuromelanin, plane derived as sagittal from the protocol
info, dims not derivable, modality "MRI" ≠ DTI, description "MYT1" ≠ "T1",
10 files) the claim says the derived values are used as-is, which would give
the key without an acq tag; the code forces `acq-sag3D` because `dims is
None` alone triggers the override. -/
theorem claim_C1_counterexample :
    Heuristic.parseProtocolInfo (some "Acquisition Plane=SAGITTAL") =
      .ok [("Acquisition Plane", "SAGITTAL")] ∧
    Heuristic.deriveDims [("Acquisition Plane", "SAGITTAL")] "MYT1" = .ok none ∧
    Heuristic.derivePlane [("Acquisition Plane", "SAGITTAL")] "MYT1" =
      .ok (some Heuristic.TAG_SAG) ∧
    Heuristic.sampleHelper.imaging.lookup "2" =
      some ⟨some "Acquisition Plane=SAGITTAL", "MRI"⟩ ∧
    ("MRI" : String) ≠ Heuristic.MODALITY_DWI ∧
    Heuristic.classifyTry Heuristic.sampleHelper
        Heuristic.samplePlaneOnlyRecord "2" =
      Heuristic.create_key_anat Heuristic.SUFFIX_T1 (some Heuristic.TAG_SAG)
        (some Heuristic.TAG_3D) none ∧
    Heuristic.create_key_anat Heuristic.SUFFIX_T1 (some Heuristic.TAG_SAG)
        (some Heuristic.TAG_3D) none ≠
      Heuristic.create_key_anat Heuristic.SUFFIX_T1 (some Heuristic.TAG_SAG)
        none none := by
  decide

/-- Witness for C1 (amended) at the concrete sample record. -/
theorem claim_C1_forced_sag3d_witness :
    Heuristic.classifyTry Heuristic.sampleHelper
        Heuristic.samplePlaneOnlyRecord "2" =
      Heuristic.create_key_anat Heuristic.SUFFIX_T1
        (if Heuristic.forcedSag3D ⟨some "Acquisition Plane=SAGITTAL", "MRI"⟩
            Heuristic.samplePlaneOnlyRecord none (some Heuristic.TAG_SAG)
         then some Heuristic.TAG_SAG else some Heuristic.TAG_SAG)
        (if Heuristic.forcedSag3D ⟨some "Acquisition Plane=SAGITTAL", "MRI"⟩
            Heuristic.samplePlaneOnlyRecord none (some Heuristic.TAG_SAG)
         then some Heuristic.TAG_3D else none)
        none :=
  (claim_C1_forced_sag3d Heuristic.sampleHelper Heuristic.samplePlaneOnlyRecord
    "2" ⟨some "Acquisition Plane=SAGITTAL", "MRI"⟩
    [("Acquisition Plane", "SAGITTAL")] Heuristic.SUFFIX_T1 none
    (some Heuristic.TAG_SAG) (by decide) (by decide) (by decide) (by decide)
    (by decide) (by decide)).1

/-! ## Claims C4 and C9: per-record failure handling -/

theorem processRecord_of_classify_error (h : Heuristic.HeuristicHelper)
    (s : Heuristic.SeqInfo) (image_id e : String)
    (hid : Heuristic.get_image_id_from_dcm s.example_dcm_file = .ok image_id)
    (hh1 : image_id ∉ Heuristic.hardcodedT1Ids)
    (hh2 : s.series_description ≠ "sT1W_3D_TFE")
    (hh3 : image_id ≠ "1609534") (hh4 : image_id ≠ "1397805")
    (hh5 : image_id ≠ "1680316") (hh6 : image_id ≠ "1680317")
    (hcl : Heuristic.classifyTry h s image_id = .error e) :
    Heuristic.processRecord h false s = .ok [] ∧
    Heuristic.processRecord h true s =
      .error ("ERROR in heuristic: " ++ e ++ " (image ID: " ++ image_id ++ ")") := by
  constructor <;>
    simp [Heuristic.processRecord, hid, hh1, hh2, hh3, hh4, hh5, hh6, hcl,
      exceptBind_ok, pure, throw, throwThe, MonadExceptOf.throw, Except.pure]

theorem infotodict_skip_go (h : Heuristic.HeuristicHelper)
    (s : Heuristic.SeqInfo) (hs : Heuristic.processRecord h false s = .ok [])
    (post : List Heuristic.SeqInfo) :
    ∀ (pre : List Heuristic.SeqInfo) (acc : List (String × String)),
      List.foldlM
          (fun acc r => do pure (acc ++ (← Heuristic.processRecord h false r)))
          acc (pre ++ s :: post) =
        List.foldlM
          (fun acc r => do pure (acc ++ (← Heuristic.processRecord h false r)))
          acc (pre ++ post) := by
  intro pre
  induction pre with
  | nil =>
      intro acc
      simp [hs, exceptBind_ok]
  | cons p pre ih =>
      intro acc
      simp only [List.cons_append, List.foldlM_cons]
      cases hp : Heuristic.processRecord h false p with
      | error e => simp only [hp, exceptBind_err, bind_assoc, exceptBind_ok]
      | ok xs =>
          simp only [hp, exceptBind_ok, pure_bind]
          exact ih (acc ++ xs)

/-- C9: an exception raised while classifying one record (after a successful
image-ID extraction, outside the hardcoded overrides) is caught in
non-testing mode — the record contributes nothing and the remaining records
are processed as if it were absent — while in testing mode the same exception
is re-raised immediately, wrapped with the record's image ID, and the run
stops. -/
theorem claim_C9_per_record_failure (h : Heuristic.HeuristicHelper)
    (s : Heuristic.SeqInfo) (image_id e : String)
    (hid : Heuristic.get_image_id_from_dcm s.example_dcm_file = .ok image_id)
    (hh1 : image_id ∉ Heuristic.hardcodedT1Ids)
    (hh2 : s.series_description ≠ "sT1W_3D_TFE")
    (hh3 : image_id ≠ "1609534") (hh4 : image_id ≠ "1397805")
    (hh5 : image_id ≠ "1680316") (hh6 : image_id ≠ "1680317")
    (hcl : Heuristic.classifyTry h s image_id = .error e) :
    (∀ pre post : List Heuristic.SeqInfo,
      Heuristic.infotodict h false (pre ++ s :: post) =
        Heuristic.infotodict h false (pre ++ post)) ∧
    (∀ post : List Heuristic.SeqInfo,
      Heuristic.infotodict h true (s :: post) =
        .error ("ERROR in heuristic: " ++ e ++ " (image ID: " ++ image_id
          ++ ")")) := by
  obtain ⟨hskip, hraise⟩ := processRecord_of_classify_error h s image_id e hid
    hh1 hh2 hh3 hh4 hh5 hh6 hcl
  constructor
  · intro pre post
    exact infotodict_skip_go h s hskip post pre []
  · intro post
    simp [Heuristic.infotodict, hraise, exceptBind_err]

/-- Witness for C9 at the sample ambiguous record, followed by the sample
well-classified record. -/
theorem claim_C9_per_record_failure_witness :
    Heuristic.infotodict Heuristic.sampleHelper false
        [Heuristic.sampleAmbiguousRecord, Heuristic.samplePlaneOnlyRecord] =
      Heuristic.infotodict Heuristic.sampleHelper false
        [Heuristic.samplePlaneOnlyRecord] ∧
    Heuristic.infotodict Heuristic.sampleHelper true
        [Heuristic.sampleAmbiguousRecord, Heuristic.samplePlaneOnlyRecord] =
      .error ("ERROR in heuristic: "
        ++ "Found multiple dims tags in description: MYT2 2D 3D"
        ++ " (image ID: " ++ "1" ++ ")") := by
  obtain ⟨h1, h2⟩ := claim_C9_per_record_failure Heuristic.sampleHelper
    Heuristic.sampleAmbiguousRecord "1"
    "Found multiple dims tags in description: MYT2 2D 3D"
    (by decide) (by decide) (by decide) (by decide) (by decide) (by decide)
    (by decide) (by decide)
  exact ⟨h1 [] [Heuristic.samplePlaneOnlyRecord],
    h2 [Heuristic.samplePlaneOnlyRecord]⟩

/-- C4 (amended): two different dims (or plane) tags in one description make
the description-scan fallback raise a `RuntimeError` for that record, so the
record never receives a silently guessed dims/plane and gains no assignment;
the error aborts the whole run only in testing mode, while in non-testing
mode the record is skipped and processing continues. -/
theorem claim_C4_ambiguous_tags :
    (∀ (parsed : List (String × String)) (desc : String),
      (Heuristic.dictLookup parsed Heuristic.KEY_DIMS >>=
        Heuristic.MAP_DIMS.lookup) = none →
      containsCI desc Heuristic.TAG_2D = true →
      containsCI desc Heuristic.TAG_3D = true →
        Heuristic.deriveDims parsed desc =
          .error ("Found multiple dims tags in description: " ++ desc)) ∧
    (∀ (parsed : List (String × String)) (desc : String) (t1 t2 : String),
      (Heuristic.dictLookup parsed Heuristic.KEY_PLANE >>=
        Heuristic.MAP_PLANE.lookup) = none →
      t1 ∈ Heuristic.TAGS_PLANE → t2 ∈ Heuristic.TAGS_PLANE → t1 ≠ t2 →
      containsCI desc t1 = true → containsCI desc t2 = true →
        Heuristic.derivePlane parsed desc =
          .error ("Found multiple plane tags in description: " ++ desc)) ∧
    (∀ (h : Heuristic.HeuristicHelper) (s : Heuristic.SeqInfo)
        (image_id : String) (info : Heuristic.ImagingInfo)
        (parsed : List (String × String)) (sfx e : String),
      Heuristic.get_datatype_suffix_from_description h s.series_description
        = .ok (Heuristic.DATATYPE_ANAT, some sfx) →
      h.imaging.lookup image_id = some info →
      Heuristic.parseProtocolInfo info.protocol = .ok parsed →
      Heuristic.nmSearch s.series_description = false →
      Heuristic.deriveDims parsed s.series_description = .error e →
        Heuristic.classifyTry h s image_id = .error e) ∧
    (∀ (h : Heuristic.HeuristicHelper) (s : Heuristic.SeqInfo)
        (image_id e : String),
      Heuristic.get_image_id_from_dcm s.example_dcm_file = .ok image_id →
      image_id ∉ Heuristic.hardcodedT1Ids →
      s.series_description ≠ "sT1W_3D_TFE" →
      image_id ≠ "1609534" → image_id ≠ "1397805" →
      image_id ≠ "1680316" → image_id ≠ "1680317" →
      Heuristic.classifyTry h s image_id = .error e →
        (∀ post, Heuristic.infotodict h false (s :: post) =
          Heuristic.infotodict h false post) ∧
        (∀ post, Heuristic.infotodict h true (s :: post) =
          .error ("ERROR in heuristic: " ++ e ++ " (image ID: " ++ image_id
            ++ ")"))) := by
  refine ⟨?_, ?_, ?_, ?_⟩
  · intro parsed desc hlk h2d h3d
    simp [Heuristic.deriveDims, hlk, Heuristic.scanTags, Heuristic.TAGS_DIMS,
      h2d, h3d, exceptBind_ok]
  · intro parsed desc t1 t2 hlk ht1 ht2 hne hc1 hc2
    have hred : Heuristic.derivePlane parsed desc =
        Heuristic.scanTags Heuristic.TAGS_PLANE desc "plane" := by
      simp only [Heuristic.derivePlane, hlk]
    rw [hred]
    clear hred hlk
    simp only [Heuristic.TAGS_PLANE, List.mem_cons,
      List.not_mem_nil, or_false] at ht1 ht2
    rcases ht1 with rfl | rfl | rfl <;> rcases ht2 with rfl | rfl | rfl <;>
      by_cases hs : containsCI desc Heuristic.TAG_SAG <;>
      by_cases hc : containsCI desc Heuristic.TAG_COR <;>
      by_cases ha : containsCI desc Heuristic.TAG_AX <;>
      simp_all [Heuristic.scanTags, Heuristic.TAGS_PLANE, List.foldlM_cons,
        List.foldlM_nil, exceptBind_ok, exceptBind_err]
  · intro h s image_id info parsed sfx e h1 h2 h3 h4 h5
    simp [Heuristic.classifyTry, h1, h2, h3, h4, h5, exceptBind_ok,
      exceptBind_err, Heuristic.DATATYPE_ANAT]
  · intro h s image_id e hid hh1 hh2 hh3 hh4 hh5 hh6 hcl
    obtain ⟨hskip, hraise⟩ := processRecord_of_classify_error h s image_id e
      hid hh1 hh2 hh3 hh4 hh5 hh6 hcl
    constructor
    · intro post
      exact infotodict_skip_go h s hskip post [] []
    · intro post
      simp [Heuristic.infotodict, hraise, exceptBind_err]

/-- Counterexample to C4 as stated: the ambiguous record (description
`MYT2 2D 3D`, both dims tags) raises inside classification, but in
non-testing mode the run is **not** aborted — the error is caught, the record
is skipped, and the next record is still classified. -/
theorem claim_C4_counterexample :
    containsCI "MYT2 2D 3D" Heuristic.TAG_2D = true ∧
    containsCI "MYT2 2D 3D" Heuristic.TAG_3D = true ∧
    Heuristic.classifyTry Heuristic.sampleHelper
        Heuristic.sampleAmbiguousRecord "1" =
      .error "Found multiple dims tags in description: MYT2 2D 3D" ∧
    Heuristic.infotodict Heuristic.sampleHelper false
        [Heuristic.sampleAmbiguousRecord, Heuristic.samplePlaneOnlyRecord] =
      (Heuristic.create_key_anat Heuristic.SUFFIX_T1 (some Heuristic.TAG_SAG)
        (some Heuristic.TAG_3D) none).map (fun k => [(k, "s2")]) := by
  decide

/-- Witness for C4 (amended) at the ambiguous sample record. -/
theorem claim_C4_ambiguous_tags_witness :
    Heuristic.deriveDims [] "MYT2 2D 3D" =
      .error ("Found multiple dims tags in description: " ++ "MYT2 2D 3D") ∧
    Heuristic.derivePlane [] "AX COR LOC" =
      .error ("Found multiple plane tags in description: " ++ "AX COR LOC") ∧
    Heuristic.infotodict Heuristic.sampleHelper true
        [Heuristic.sampleAmbiguousRecord] =
      .error ("ERROR in heuristic: "
        ++ "Found multiple dims tags in description: MYT2 2D 3D"
        ++ " (image ID: " ++ "1" ++ ")") := by
  refine ⟨?_, ?_, ?_⟩
  · exact claim_C4_ambiguous_tags.1 [] "MYT2 2D 3D" (by decide) (by decide)
      (by decide)
  · exact claim_C4_ambiguous_tags.2.1 [] "AX COR LOC" Heuristic.TAG_COR
      Heuristic.TAG_AX (by decide) (by decide) (by decide) (by decide)
      (by decide) (by decide)
  · exact ((claim_C4_ambiguous_tags.2.2.2 Heuristic.sampleHelper
      Heuristic.sampleAmbiguousRecord "1"
      "Found multiple dims tags in description: MYT2 2D 3D"
      (by decide) (by decide) (by decide) (by decide) (by decide) (by decide)
      (by decide) (by decide)).2) []

/-! ## Claim C2 -/

/-- C2: in a non-regenerate run against an existing manifest, (1) whenever
the run succeeds, every `(participant_id, session_id)` pair of the old
manifest is still present in the saved manifest (the old rows are kept and
only genuinely new rows are appended, and the string-cast deduplication keeps
at least one row per value), and (2) a run whose newly computed manifest
lacks some old pair fails with an error instead of saving.  This holds for
any new manifest, in particular when the new run's input data contains the
old run's. -/
theorem claim_C2_append_only :
    (∀ (old newManifest res : List GenerateManifest.MRow),
      GenerateManifest.manifestRunTail false (some old) newManifest = .ok res →
      ∀ p ∈ GenerateManifest.pairsOf old, p ∈ GenerateManifest.pairsOf res) ∧
    (∀ (old newManifest : List GenerateManifest.MRow),
      (∃ r ∈ old, ∀ n ∈ newManifest, GenerateManifest.pairEq n r = false) →
      ∃ msg, GenerateManifest.manifestRunTail false (some old) newManifest =
        .error msg) := by
  constructor
  · intro old newManifest res hres p hp
    simp [GenerateManifest.manifestRunTail, GenerateManifest.keepNewPairsStep]
      at hres
    by_cases hcond : ∃ x ∈ old, ∀ n ∈ newManifest,
        GenerateManifest.pairEq n x = false
    · rw [if_pos hcond] at hres
      simp [Functor.map, Except.map] at hres
    · rw [if_neg hcond] at hres
      simp only [Functor.map, Except.map, Except.ok.injEq] at hres
      obtain ⟨r, hr, hpr⟩ := List.mem_map.mp hp
      refine List.mem_map.mpr ⟨r, ?_, hpr⟩
      rw [← hres]
      exact (mem_dedupFirst r _).mpr (List.mem_append_left _ hr)
  · intro old newManifest ⟨r, hr, hnone⟩
    refine ⟨"Some of the subject/session pairs in the old manifest do not"
      ++ " seem to exist anymore", ?_⟩
    simp [GenerateManifest.manifestRunTail, GenerateManifest.keepNewPairsStep]
    rw [if_pos ⟨r, hr, hnone⟩]
    rfl

/-- Witness for C2: a two-run scenario where the second run's computed
manifest extends the first run's saved manifest, and a failing scenario where
it lost the old pair. -/
theorem claim_C2_append_only_witness :
    ((some "1", some "BL") ∈ GenerateManifest.pairsOf
      [⟨some "1", some "BL", []⟩, ⟨some "2", some "BL", []⟩]) ∧
    (∃ msg, GenerateManifest.manifestRunTail false
        (some [⟨some "1", some "BL", []⟩]) [⟨some "2", some "BL", []⟩] =
      .error msg) := by
  constructor
  · exact claim_C2_append_only.1 [⟨some "1", some "BL", []⟩]
      [⟨some "1", some "BL", []⟩, ⟨some "2", some "BL", []⟩]
      [⟨some "1", some "BL", []⟩, ⟨some "2", some "BL", []⟩]
      (by decide) (some "1", some "BL") (by decide)
  · exact claim_C2_append_only.2 [⟨some "1", some "BL", []⟩]
      [⟨some "2", some "BL", []⟩]
      ⟨⟨some "1", some "BL", []⟩, by decide, by decide⟩

/-! ## Claim C7 -/

theorem one_lt_count_of_get_eq {α : Type} [DecidableEq α] :
    ∀ (l : List α) (i j : Nat) (hi : i < l.length) (hj : j < l.length),
      i < j → l.get ⟨i, hi⟩ = l.get ⟨j, hj⟩ →
      1 < l.count (l.get ⟨i, hi⟩) := by
  intro l
  induction l with
  | nil => intro i j hi; simp at hi
  | cons a l ih =>
      intro i j hi hj hij hget
      cases i with
      | zero =>
          cases j with
          | zero => omega
          | succ j' =>
              have hj' : j' < l.length := by simpa using hj
              have hmem : a ∈ l := by
                have : l.get ⟨j', hj'⟩ = a := by
                  simpa [List.get] using hget.symm
                rw [← this]
                exact List.get_mem l j' hj'
              simp only [List.get]
              rw [List.count_cons_self]
              have := List.count_pos_iff.mpr hmem
              omega
      | succ i' =>
          cases j with
          | zero => omega
          | succ j' =>
              have hi' : i' < l.length := by simpa using hi
              have hj' : j' < l.length := by simpa using hj
              have hrec := ih i' j' hi' hj' (by omega)
                (by simpa [List.get] using hget)
              simp only [List.get]
              rw [List.count_cons]
              split <;> omega

/-- C7 (amended): two bagel rows with identical
`(bids_participant_id, participant_id, visit_id)` key triples always make the
workflow fail before either output file is written, with both rows among the
exported duplicates; and the workflow reaches the save steps exactly when the
space-joined, NaN-dropped key strings of the rows are pairwise distinct (the
code compares those strings, not the triples themselves). -/
theorem claim_C7_bagel_duplicate_check (df : TabularTracker.BagelDF) :
    (∀ i j : Fin df.rows.length, (i : ℕ) < (j : ℕ) →
      TabularTracker.keyTriple (df.rows.get i) =
        TabularTracker.keyTriple (df.rows.get j) →
      ∃ dups, TabularTracker.bagelCheckAndSave df = .failure dups ∧
        df.rows.get i ∈ dups ∧ df.rows.get j ∈ dups) ∧
    ((df.rows.map TabularTracker.joinKey).Nodup →
      TabularTracker.bagelCheckAndSave df =
        .success df.rows (TabularTracker.meltDash df)) := by
  constructor
  · intro i j hij htrip
    have hkey : TabularTracker.joinKey (df.rows.get i) =
        TabularTracker.joinKey (df.rows.get j) := by
      simp only [TabularTracker.joinKey, TabularTracker.indexColsValues]
      rw [show (df.rows.get i).bids_participant_id =
            (df.rows.get j).bids_participant_id from
          congrArg (fun t => t.1) htrip,
        show (df.rows.get i).participant_id = (df.rows.get j).participant_id from
          congrArg (fun t => t.2.1) htrip,
        show (df.rows.get i).visit_id = (df.rows.get j).visit_id from
          congrArg (fun t => t.2.2) htrip]
    have hcnt : 1 < (df.rows.map TabularTracker.joinKey).count
        (TabularTracker.joinKey (df.rows.get i)) := by
      have hi' : (i : ℕ) < (df.rows.map TabularTracker.joinKey).length := by
        simp [i.2]
      have hj' : (j : ℕ) < (df.rows.map TabularTracker.joinKey).length := by
        simp [j.2]
      have hgi : (df.rows.map TabularTracker.joinKey).get ⟨i, hi'⟩ =
          TabularTracker.joinKey (df.rows.get i) := by
        simp
      have hgj : (df.rows.map TabularTracker.joinKey).get ⟨j, hj'⟩ =
          TabularTracker.joinKey (df.rows.get j) := by
        simp
      have := one_lt_count_of_get_eq (df.rows.map TabularTracker.joinKey)
        i j hi' hj' hij (by rw [hgi, hgj, hkey])
      rwa [hgi] at this
    have hmemi : df.rows.get i ∈ df.rows := List.get_mem df.rows i i.2
    have hmemj : df.rows.get j ∈ df.rows := List.get_mem df.rows j j.2
    have hany : df.rows.any (fun r =>
        1 < (df.rows.map TabularTracker.joinKey).count
          (TabularTracker.joinKey r)) = true := by
      refine List.any_eq_true.mpr ⟨df.rows.get i, hmemi, ?_⟩
      simpa using hcnt
    refine ⟨df.rows.filter (fun r =>
        1 < (df.rows.map TabularTracker.joinKey).count
          (TabularTracker.joinKey r)), ?_, ?_, ?_⟩
    · simp only [TabularTracker.bagelCheckAndSave]
      rw [if_pos (by simpa using hany)]
    · refine List.mem_filter.mpr ⟨hmemi, by simpa using hcnt⟩
    · refine List.mem_filter.mpr ⟨hmemj, ?_⟩
      rw [← hkey] at *
      simpa using hcnt
  · intro hnd
    have hfalse : ¬ (df.rows.any (fun r =>
        1 < (df.rows.map TabularTracker.joinKey).count
          (TabularTracker.joinKey r)) = true) := by
      simp only [List.any_eq_true, not_exists]
      intro r hconj
      obtain ⟨hr, hcnt⟩ := hconj
      have hle := List.nodup_iff_count_le_one.mp hnd (TabularTracker.joinKey r)
      have : 1 < (df.rows.map TabularTracker.joinKey).count
          (TabularTracker.joinKey r) := by simpa using hcnt
      omega
    simp only [TabularTracker.bagelCheckAndSave]
    rw [if_neg (by simpa using hfalse)]

/-- Counterexample to C7 as stated: two rows with **different** key triples
(`("sub-a", "a", "a a")` and `("sub-a a", "a a", NaN)`, each with
`bids_participant_id = "sub-" ++ participant_id`) produce the same joined key
string `"sub-a a a a"`, so the workflow raises the duplicate failure even
though no two rows share identical key values. -/
theorem claim_C7_counterexample :
    TabularTracker.keyTriple ⟨some "sub-a", some "a", some "a a", []⟩ ≠
      TabularTracker.keyTriple ⟨some "sub-a a", some "a a", none, []⟩ ∧
    TabularTracker.joinKey ⟨some "sub-a", some "a", some "a a", []⟩ =
      TabularTracker.joinKey ⟨some "sub-a a", some "a a", none, []⟩ ∧
    TabularTracker.bagelCheckAndSave
        ⟨[], [⟨some "sub-a", some "a", some "a a", []⟩,
              ⟨some "sub-a a", some "a a", none, []⟩]⟩ =
      .failure [⟨some "sub-a", some "a", some "a a", []⟩,
        ⟨some "sub-a a", some "a a", none, []⟩] := by
  decide

/-- Witness for C7 (amended): identical triples fail before saving; distinct
join strings reach the save steps. -/
theorem claim_C7_bagel_duplicate_check_witness :
    (∃ dups, TabularTracker.bagelCheckAndSave
        ⟨["x"], [⟨some "sub-1", some "1", some "BL", [some "7"]⟩,
                 ⟨some "sub-1", some "1", some "BL", [some "8"]⟩]⟩ =
      .failure dups ∧
      (⟨some "sub-1", some "1", some "BL", [some "7"]⟩ :
        TabularTracker.BagelRow) ∈ dups ∧
      (⟨some "sub-1", some "1", some "BL", [some "8"]⟩ :
        TabularTracker.BagelRow) ∈ dups) ∧
    TabularTracker.bagelCheckAndSave
        ⟨["x"], [⟨some "sub-1", some "1", some "BL", [some "7"]⟩,
                 ⟨some "sub-2", some "2", some "BL", [some "8"]⟩]⟩ =
      .success
        [⟨some "sub-1", some "1", some "BL", [some "7"]⟩,
         ⟨some "sub-2", some "2", some "BL", [some "8"]⟩]
        (TabularTracker.meltDash
          ⟨["x"], [⟨some "sub-1", some "1", some "BL", [some "7"]⟩,
                   ⟨some "sub-2", some "2", some "BL", [some "8"]⟩]⟩) := by
  constructor
  · exact (claim_C7_bagel_duplicate_check
      ⟨["x"], [⟨some "sub-1", some "1", some "BL", [some "7"]⟩,
               ⟨some "sub-1", some "1", some "BL", [some "8"]⟩]⟩).1
      ⟨0, by decide⟩ ⟨1, by decide⟩ (by decide) (by decide)
  · exact (claim_C7_bagel_duplicate_check
      ⟨["x"], [⟨some "sub-1", some "1", some "BL", [some "7"]⟩,
               ⟨some "sub-2", some "2", some "BL", [some "8"]⟩]⟩).2
      (by decide)

/-! ## Claim C8 -/

/-- C8 (amended): in the reject step (with a nonempty `reject_substrings`
list, and an
exceptions list that is absent or nonempty, as in every configured filter), a
candidate description survives exactly when it matches no reject entry under
the regex-escape interpretation — the entry's unescaped text (e.g. `t2*` for
the configured entry `t2\*`) does not occur in it case-insensitively — or
matches an exception entry; the original claim's literal-substring reading
("descriptions containing no reject substring are never removed") is refuted
by `claim_C8_counterexample`. -/
theorem claim_C8_reject_step (descriptions rs : List String)
    (ex : Option (List String)) (d : String) (hrs : rs ≠ [])
    (hex : ex = none ∨ ∃ e es, ex = some (e :: es)) :
    d ∈ FilterDescriptions.rejectStep descriptions (some rs) ex ↔
      (d ∈ descriptions ∧
        ((∀ e ∈ rs, containsCI d
            (String.mk (FilterDescriptions.unescapeRe e.toList)) = false) ∨
          (∃ exl, ex = some exl ∧ ∃ e ∈ exl, containsCI d
            (String.mk (FilterDescriptions.unescapeRe e.toList)) = true))) := by
  have hrsE : rs.isEmpty = false := by
    cases rs with
    | nil => exact absurd rfl hrs
    | cons a l => rfl
  rcases hex with rfl | ⟨e0, es, rfl⟩
  · simp only [FilterDescriptions.rejectStep, hrsE, Bool.false_eq_true,
      if_false, List.append_nil]
    rw [mem_dedupFirst]
    simp only [List.mem_filter, FilterDescriptions.strContainsJoined, hrsE,
      Bool.false_or, Bool.not_eq_true, List.any_eq_false]
    constructor
    · rintro ⟨hd, hall⟩
      exact ⟨hd, Or.inl (by simpa using hall)⟩
    · rintro ⟨hd, hall | ⟨exl, hforbidden, _⟩⟩
      · exact ⟨hd, by simpa using hall⟩
      · cases hforbidden
  · simp only [FilterDescriptions.rejectStep, hrsE, Bool.false_eq_true,
      if_false]
    rw [mem_dedupFirst]
    simp only [List.mem_append, List.mem_filter,
      FilterDescriptions.strContainsJoined, hrsE, Bool.false_or,
      Bool.not_eq_true, List.any_eq_false, List.isEmpty_cons,
      List.any_eq_true, Option.some.injEq]
    constructor
    · rintro (⟨hd, hall⟩ | ⟨hd, hexc⟩)
      · exact ⟨hd, Or.inl (by simpa using hall)⟩
      · refine ⟨hd, Or.inr ⟨e0 :: es, rfl, ?_⟩⟩
        simpa using hexc
    · rintro ⟨hd, hall | ⟨exl, hexl, he, hemem, hec⟩⟩
      · exact Or.inl ⟨hd, by simpa using hall⟩
      · cases hexl
        exact Or.inr ⟨hd, he, hemem, hec⟩

/-- Counterexample to C8 as stated: the T2 filter's reject list holds the
regex-escaped entry `t2\*`, which matches the literal text `t2*`; the
description `SAG T2* FSE` contains no reject entry as a substring
(case-insensitively), yet the reject step removes it (the T2 filter has no
exception list). -/
theorem claim_C8_counterexample :
    (∀ e ∈ FilterDescriptions.rejectSubstringsT2,
      containsCI "SAG T2* FSE" e = false) ∧
    FilterDescriptions.unescapeRe ("t2\\*".toList) = "t2*".toList ∧
    ("t2\\*" : String) ∈ FilterDescriptions.rejectSubstringsT2 ∧
    containsCI "SAG T2* FSE" "t2*" = true ∧
    "SAG T2* FSE" ∉ FilterDescriptions.rejectStep ["SAG T2* FSE"]
      (some FilterDescriptions.rejectSubstringsT2) none := by
  decide

/-- Witness for C8 (amended) with the configured T1 filter lists:
`"T1 REPEAT2"` matches the reject entry `"t2"` but is restored by its
exception entry, and `"SAG MPRAGE"` matches no reject entry and is kept. -/
theorem claim_C8_reject_step_witness :
    "T1 REPEAT2" ∈ FilterDescriptions.rejectStep
      ["T1 REPEAT2", "SAG T2 FSE", "SAG MPRAGE"]
      (some FilterDescriptions.rejectSubstringsT1)
      (some FilterDescriptions.rejectExceptionsT1) ∧
    "SAG MPRAGE" ∈ FilterDescriptions.rejectStep
      ["T1 REPEAT2", "SAG T2 FSE", "SAG MPRAGE"]
      (some FilterDescriptions.rejectSubstringsT1)
      (some FilterDescriptions.rejectExceptionsT1) := by
  constructor
  · exact (claim_C8_reject_step ["T1 REPEAT2", "SAG T2 FSE", "SAG MPRAGE"]
      FilterDescriptions.rejectSubstringsT1
      (some FilterDescriptions.rejectExceptionsT1) "T1 REPEAT2"
      (by decide) (Or.inr ⟨"T1 REPEAT2",
        FilterDescriptions.rejectExceptionsT1.tail, by decide⟩)).mpr
      ⟨by decide, Or.inr ⟨FilterDescriptions.rejectExceptionsT1, rfl,
        "T1 REPEAT2", by decide, by decide⟩⟩
  · exact (claim_C8_reject_step ["T1 REPEAT2", "SAG T2 FSE", "SAG MPRAGE"]
      FilterDescriptions.rejectSubstringsT1
      (some FilterDescriptions.rejectExceptionsT1) "SAG MPRAGE"
      (by decide) (Or.inr ⟨"T1 REPEAT2",
        FilterDescriptions.rejectExceptionsT1.tail, by decide⟩)).mpr
      ⟨by decide, Or.inl (by decide)⟩

/-! ## Claim C6 -/

/-- C6: the ON/OFF bucket decision table of `updrs3_on_off_splitter` (default
OFF; ON when `PDSTATE == "ON"`; else ON exactly under the treatment/page
conditions), the concrete two-row ON/OFF scenario, and the per-(subject,visit)
in-bucket maximum. -/
theorem claim_C6_updrs_split :
    (∀ ps pg tr : String,
      TabularFilters.updrsTargetIsOn ps pg tr = true ↔
        (ps = "ON" ∨
          (tr ≠ "0" ∧ ps ≠ "OFF" ∧
            (pg = "NUPDR3ON" ∨ (pg ≠ "NUPDR3OF" ∧ tr = "1"))))) ∧
    TabularFilters.updrs3_on_off_splitter
        [⟨"3000", "V04", "ON", "NUPDR3ON", "1", ⟨12, 1⟩⟩,
         ⟨"3000", "V04", "OFF", "NUPDR3OF", "1", ⟨20, 1⟩⟩] =
      [⟨"3000", "V04", some ⟨20, 1⟩, some ⟨12, 1⟩⟩] ∧
    (PyF.toRat ⟨12, 1⟩ = 12 ∧ PyF.toRat ⟨20, 1⟩ = 20) ∧
    TabularFilters.updrs3_on_off_splitter
        [⟨"3000", "V04", "ON", "NUPDR3ON", "1", ⟨12, 1⟩⟩,
         ⟨"3000", "V04", "ON", "NUPDR3ON", "1", ⟨15, 1⟩⟩] =
      [⟨"3000", "V04", none, some ⟨15, 1⟩⟩] := by
  refine ⟨?_, by decide, ⟨by norm_num [PyF.toRat], by norm_num [PyF.toRat]⟩,
    by decide⟩
  intro ps pg tr
  unfold TabularFilters.updrsTargetIsOn
  by_cases h1 : ps = "ON" <;> by_cases h2 : tr = "0" <;>
    by_cases h3 : ps = "OFF" <;> by_cases h4 : pg = "NUPDR3ON" <;>
    by_cases h5 : pg = "NUPDR3OF" <;> by_cases h6 : tr = "1" <;>
    simp_all

/-! ## Claim C5 -/

/-- C5 (code bug): `age_filter` compares a duplicated age against **every**
age of the same subject at a later-or-equal visit, including ages that are
themselves duplicated, although its own comment (and the spec) restrict the
comparison to non-duplicated ages.  At the failing input — subject 3000 with
duplicated ages [72, 74.5] at V04 and duplicated ages [73, 80] at V06 — both
V04 and V06 are duplicated keys (so no non-duplicated later age exists and
the claim would average 72 and 74.5 to 73.25), yet the code discards 74.5
because 74.5 >= 73 and returns 72 for V04 (and 76.5 for V06). -/
theorem claim_C5_age_filter_bug :
    TabularFilters.ageDupKeys
        [⟨"3000", "V04", ⟨72, 1⟩⟩, ⟨"3000", "V04", ⟨149, 2⟩⟩,
         ⟨"3000", "V06", ⟨73, 1⟩⟩, ⟨"3000", "V06", ⟨80, 1⟩⟩] =
      [("3000", "V04"), ("3000", "V06")] ∧
    TabularFilters.age_filter
        [⟨"3000", "V04", ⟨72, 1⟩⟩, ⟨"3000", "V04", ⟨149, 2⟩⟩,
         ⟨"3000", "V06", ⟨73, 1⟩⟩, ⟨"3000", "V06", ⟨80, 1⟩⟩] =
      .ok [⟨"3000", "V04", some ⟨72, 1⟩⟩, ⟨"3000", "V06", some ⟨153, 2⟩⟩] ∧
    TabularFilters.age_filter
        [⟨"3000", "V04", ⟨72, 1⟩⟩, ⟨"3000", "V04", ⟨149, 2⟩⟩,
         ⟨"3000", "V06", ⟨73, 1⟩⟩] =
      .ok [⟨"3000", "V04", some ⟨72, 1⟩⟩, ⟨"3000", "V06", some ⟨73, 1⟩⟩] ∧
    (PyF.toRat ⟨149, 2⟩ = 149 / 2 ∧ PyF.toRat ⟨72, 1⟩ = 72 ∧
      PyF.toRat ⟨153, 2⟩ = 153 / 2 ∧
      PyF.toRat ⟨72, 1⟩ ≠ (72 + 149 / 2) / 2) := by
  refine ⟨by decide, by decide, by decide, by norm_num [PyF.toRat],
    by norm_num [PyF.toRat], by norm_num [PyF.toRat], by norm_num [PyF.toRat]⟩

/-! ## Claim C3 -/

namespace TabularUtils

theorem countP_flatMap {α β : Type} (f : α → List β) (q : β → Bool) :
    ∀ l : List α, (l.flatMap f).countP q = (l.map (fun a => (f a).countP q)).sum := by
  intro l
  induction l with
  | nil => simp
  | cons a l ih => simp [List.flatMap_cons, List.countP_append, ih]

theorem sum_map_ite {α : Type} (l : List α) (p : α → Bool) (c : Nat) :
    (l.map (fun a => if p a then c else 0)).sum = c * l.countP p := by
  induction l with
  | nil => simp
  | cons a l ih =>
      by_cases h : p a <;>
        simp [h, ih, List.countP_cons, Nat.mul_add, Nat.mul_succ] <;>
        try ring

theorem countP_congr2 {α : Type} (l : List α) (p q : α → Bool)
    (h : ∀ a ∈ l, p a = q a) : l.countP p = l.countP q := by
  rw [List.countP_eq_length_filter, List.countP_eq_length_filter,
    List.filter_congr h]

theorem countPair_mergeOuterNS (L R : NSDF) (p : Cell × Cell) :
    countPair (mergeOuterNS L R).rows p =
      countPair L.rows p *
        (if countPair R.rows p = 0 then 1 else countPair R.rows p) +
      (if countPair L.rows p = 0 then countPair R.rows p else 0) := by
  classical
  have hfe : ∀ l : NSRow, (l.pid = p.1 && l.vid = p.2) = true →
      R.rows.filter (fun r => r.pid = l.pid && r.vid = l.vid) =
        R.rows.filter (fun r => r.pid = p.1 && r.vid = p.2) := by
    intro l hl
    simp only [Bool.and_eq_true, decide_eq_true_eq] at hl
    exact List.filter_congr (fun r _ => by rw [hl.1, hl.2])
  have hlen : (R.rows.filter (fun r => r.pid = p.1 && r.vid = p.2)).length =
      countPair R.rows p := by
    rw [countPair, List.countP_eq_length_filter]
  unfold mergeOuterNS countPair
  simp only [List.countP_append]
  rw [countP_flatMap]
  have hpt : ∀ l ∈ L.rows,
      (fun l => ((if (R.rows.filter
            (fun r => r.pid = l.pid && r.vid = l.vid)).isEmpty
          then ([⟨l.pid, l.vid, l.vals ++ pad R.nvals⟩] : List NSRow)
          else (R.rows.filter (fun r => r.pid = l.pid && r.vid = l.vid)).map
            (fun r => ⟨l.pid, l.vid, l.vals ++ r.vals⟩)).countP
          (fun r => r.pid = p.1 && r.vid = p.2))) l =
      (fun l => (if (l.pid = p.1 && l.vid = p.2 : Bool)
        then (if countPair R.rows p = 0 then 1 else countPair R.rows p)
        else 0)) l := by
    intro l _
    beta_reduce
    by_cases hl : (l.pid = p.1 && l.vid = p.2) = true
    · rw [hfe l hl, if_pos hl]
      by_cases hemp : (R.rows.filter
          (fun r => r.pid = p.1 && r.vid = p.2)).isEmpty
      · rw [if_pos hemp]
        have h0 : countPair R.rows p = 0 := by
          rw [← hlen]
          simpa [List.isEmpty_iff_length_eq_zero] using hemp
        rw [if_pos h0]
        simp [List.countP_cons, hl]
      · rw [if_neg hemp]
        have hne : countPair R.rows p ≠ 0 := by
          rw [← hlen]
          intro hz
          exact hemp (by simpa [List.isEmpty_iff_length_eq_zero] using hz)
        rw [if_neg hne, List.countP_map, ← hlen]
        rw [List.countP_eq_length]
        intro r _
        simpa using hl
    · rw [if_neg hl]
      by_cases hemp : (R.rows.filter
          (fun r => r.pid = l.pid && r.vid = l.vid)).isEmpty
      · rw [if_pos hemp]
        have hl' : (l.pid = p.1 && l.vid = p.2) = false := by
          simpa using hl
        simp [List.countP_cons, hl']
      · rw [if_neg hemp, List.countP_map, List.countP_eq_zero]
        intro r _
        simpa using hl
  rw [List.map_congr_left hpt, sum_map_ite]
  have h2 : ((R.rows.filter (fun r =>
        !(L.rows.any (fun l => l.pid = r.pid && l.vid = r.vid)))).map
      (fun r => (⟨r.pid, r.vid, pad L.nvals ++ r.vals⟩ : NSRow))).countP
      (fun r => r.pid = p.1 && r.vid = p.2) =
      (if countPair L.rows p = 0 then countPair R.rows p else 0) := by
    rw [List.countP_map]
    have hstep : (R.rows.filter (fun r =>
        !(L.rows.any (fun l => l.pid = r.pid && l.vid = r.vid)))).countP
        ((fun r : NSRow => r.pid = p.1 && r.vid = p.2) ∘
          (fun r => (⟨r.pid, r.vid, pad L.nvals ++ r.vals⟩ : NSRow))) =
        (R.rows.filter (fun r =>
          !(L.rows.any (fun l => l.pid = r.pid && l.vid = r.vid)))).countP
          (fun r => r.pid = p.1 && r.vid = p.2) := by
      exact countP_congr2 _ _ _ (fun r _ => rfl)
    rw [hstep, List.countP_filter]
    by_cases hL : countPair L.rows p = 0
    · rw [if_pos hL]
      have hnone : ∀ l ∈ L.rows, (l.pid = p.1 && l.vid = p.2) = false := by
        intro l hl
        have := List.countP_eq_zero.mp hL l hl
        simpa using this
      refine countP_congr2 _ _ _ (fun r _ => ?_)
      by_cases hqr : (r.pid = p.1 && r.vid = p.2) = true
      · obtain ⟨h1', h2'⟩ : r.pid = p.1 ∧ r.vid = p.2 := by simpa using hqr
        have hany : (L.rows.any (fun l => l.pid = r.pid && l.vid = r.vid))
            = false := by
          rw [List.any_eq_false]
          intro l hl
          have := hnone l hl
          rw [h1', h2']
          simpa using this
        rw [hqr, hany]
        rfl
      · have hqr' : (r.pid = p.1 && r.vid = p.2) = false := by simpa using hqr
        rw [hqr']
        simp
    · rw [if_neg hL]
      obtain ⟨l0, hl0, hql0⟩ := List.countP_pos_iff.mp (Nat.pos_of_ne_zero hL)
      rw [List.countP_eq_zero]
      intro r _
      by_cases hqr : (r.pid = p.1 && r.vid = p.2) = true
      · obtain ⟨h1', h2'⟩ : r.pid = p.1 ∧ r.vid = p.2 := by simpa using hqr
        have hany : (L.rows.any (fun l => l.pid = r.pid && l.vid = r.vid))
            = true := by
          refine List.any_eq_true.mpr ⟨l0, hl0, ?_⟩
          rw [h1', h2']
          exact hql0
        simp [hany]
      · have hqr' : (r.pid = p.1 && r.vid = p.2) = false := by simpa using hqr
        simp [hqr']
  rw [h2]
  simp only [countPair]
  ring

theorem countPair_mergeOuterNS_unique (L R : NSDF) (p : Cell × Cell)
    (hL : countPair L.rows p ≤ 1) (hR : countPair R.rows p ≤ 1) :
    countPair (mergeOuterNS L R).rows p =
      max (countPair L.rows p) (countPair R.rows p) := by
  rw [countPair_mergeOuterNS]
  have h1 : countPair L.rows p = 0 ∨ countPair L.rows p = 1 := by omega
  have h2 : countPair R.rows p = 0 ∨ countPair R.rows p = 1 := by omega
  rcases h1 with h1 | h1 <;> rcases h2 with h2 | h2 <;> simp [h1, h2]

theorem countPair_foldl_mergeOuterNS :
    ∀ (ds : List NSDF) (d : NSDF),
      (∀ p, countPair d.rows p ≤ 1) →
      (∀ df ∈ ds, ∀ p, countPair df.rows p ≤ 1) →
      ∀ p, countPair (ds.foldl mergeOuterNS d).rows p =
        (if 0 < countPair d.rows p ∨ ∃ df ∈ ds, 0 < countPair df.rows p
         then 1 else 0) := by
  intro ds
  induction ds with
  | nil =>
      intro d hd _ p
      have := hd p
      by_cases h : 0 < countPair d.rows p <;> simp [h] <;> omega
  | cons d' ds ih =>
      intro d hd hds p
      have hd' : ∀ p, countPair d'.rows p ≤ 1 := hds d' (by simp)
      have hmerged : ∀ p, countPair (mergeOuterNS d d').rows p ≤ 1 := by
        intro p'
        rw [countPair_mergeOuterNS_unique d d' p' (hd p') (hd' p')]
        exact max_le (hd p') (hd' p')
      have hrest : ∀ df ∈ ds, ∀ p, countPair df.rows p ≤ 1 := by
        intro df hdf
        exact hds df (by simp [hdf])
      rw [List.foldl_cons, ih (mergeOuterNS d d') hmerged hrest p]
      rw [countPair_mergeOuterNS_unique d d' p (hd p) (hd' p)]
      by_cases hcase : 0 < countPair d.rows p ∨ 0 < countPair d'.rows p ∨
          ∃ df ∈ ds, 0 < countPair df.rows p
      · rw [if_pos ?side1, if_pos ?side2]
        case side1 =>
          rcases hcase with h | h | h
          · exact Or.inl (by omega)
          · exact Or.inl (by omega)
          · exact Or.inr h
        case side2 =>
          rcases hcase with h | h | h
          · exact Or.inl h
          · exact Or.inr ⟨d', by simp, h⟩
          · obtain ⟨df, hdf, hpos⟩ := h
            exact Or.inr ⟨df, by simp [hdf], hpos⟩
      · push_neg at hcase
        obtain ⟨hc1, hc2, hc3⟩ := hcase
        rw [if_neg, if_neg]
        · rintro (h | ⟨df, hdf, hpos⟩)
          · omega
          · rcases List.mem_cons.mp hdf with rfl | hdf'
            · omega
            · exact absurd hpos (by simpa using hc3 df hdf')
        · rintro (h | ⟨df, hdf, hpos⟩)
          · omega
          · exact absurd hpos (by simpa using hc3 df hdf)

theorem countPidS_mergeOuterS (L R : SDF) (c : Cell) :
    countPidS (mergeOuterS L R).rows c =
      countPidS L.rows c *
        (if countPidS R.rows c = 0 then 1 else countPidS R.rows c) +
      (if countPidS L.rows c = 0 then countPidS R.rows c else 0) := by
  classical
  have hfe : ∀ l : SRow, (decide (l.pid = c)) = true →
      R.rows.filter (fun r => r.pid = l.pid) =
        R.rows.filter (fun r => r.pid = c) := by
    intro l hl
    simp only [decide_eq_true_eq] at hl
    exact List.filter_congr (fun r _ => by rw [hl])
  have hlen : (R.rows.filter (fun r => r.pid = c)).length =
      countPidS R.rows c := by
    rw [countPidS, List.countP_eq_length_filter]
  unfold mergeOuterS countPidS
  simp only [List.countP_append]
  rw [countP_flatMap]
  have hpt : ∀ l ∈ L.rows,
      (fun l => ((if (R.rows.filter (fun r => r.pid = l.pid)).isEmpty
          then ([⟨l.pid, l.vals ++ pad R.nvals⟩] : List SRow)
          else (R.rows.filter (fun r => r.pid = l.pid)).map
            (fun r => ⟨l.pid, l.vals ++ r.vals⟩)).countP
          (fun r => r.pid = c))) l =
      (fun l => (if (decide (l.pid = c) : Bool)
        then (if countPidS R.rows c = 0 then 1 else countPidS R.rows c)
        else 0)) l := by
    intro l _
    beta_reduce
    by_cases hl : (decide (l.pid = c)) = true
    · rw [hfe l hl, if_pos hl]
      by_cases hemp : (R.rows.filter (fun r => r.pid = c)).isEmpty
      · rw [if_pos hemp]
        have h0 : countPidS R.rows c = 0 := by
          rw [← hlen]
          simpa [List.isEmpty_iff_length_eq_zero] using hemp
        rw [if_pos h0]
        simp [List.countP_cons, hl]
      · rw [if_neg hemp]
        have hne : countPidS R.rows c ≠ 0 := by
          rw [← hlen]
          intro hz
          exact hemp (by simpa [List.isEmpty_iff_length_eq_zero] using hz)
        rw [if_neg hne, List.countP_map, ← hlen]
        rw [List.countP_eq_length]
        intro r _
        simpa using hl
    · rw [if_neg hl]
      by_cases hemp : (R.rows.filter (fun r => r.pid = l.pid)).isEmpty
      · rw [if_pos hemp]
        have hl' : (decide (l.pid = c)) = false := by simpa using hl
        simp [List.countP_cons, hl']
      · rw [if_neg hemp, List.countP_map, List.countP_eq_zero]
        intro r _
        simpa using hl
  rw [List.map_congr_left hpt, sum_map_ite]
  have h2 : ((R.rows.filter (fun r =>
        !(L.rows.any (fun l => l.pid = r.pid)))).map
      (fun r => (⟨r.pid, pad L.nvals ++ r.vals⟩ : SRow))).countP
      (fun r => r.pid = c) =
      (if countPidS L.rows c = 0 then countPidS R.rows c else 0) := by
    rw [List.countP_map]
    have hstep : (R.rows.filter (fun r =>
        !(L.rows.any (fun l => l.pid = r.pid)))).countP
        ((fun r : SRow => decide (r.pid = c)) ∘
          (fun r => (⟨r.pid, pad L.nvals ++ r.vals⟩ : SRow))) =
        (R.rows.filter (fun r =>
          !(L.rows.any (fun l => l.pid = r.pid)))).countP
          (fun r => r.pid = c) := by
      exact countP_congr2 _ _ _ (fun r _ => rfl)
    rw [hstep, List.countP_filter]
    by_cases hL : countPidS L.rows c = 0
    · rw [if_pos hL]
      have hnone : ∀ l ∈ L.rows, (decide (l.pid = c)) = false := by
        intro l hl
        have := List.countP_eq_zero.mp hL l hl
        simpa using this
      refine countP_congr2 _ _ _ (fun r _ => ?_)
      by_cases hqr : (decide (r.pid = c)) = true
      · have h1' : r.pid = c := by simpa using hqr
        have hany : (L.rows.any (fun l => l.pid = r.pid)) = false := by
          rw [List.any_eq_false]
          intro l hl
          have := hnone l hl
          rw [h1']
          simpa using this
        rw [hqr, hany]
        rfl
      · have hqr' : (decide (r.pid = c)) = false := by simpa using hqr
        rw [hqr']
        simp
    · rw [if_neg hL]
      obtain ⟨l0, hl0, hql0⟩ := List.countP_pos_iff.mp (Nat.pos_of_ne_zero hL)
      rw [List.countP_eq_zero]
      intro r _
      by_cases hqr : (decide (r.pid = c)) = true
      · have h1' : r.pid = c := by simpa using hqr
        have hany : (L.rows.any (fun l => l.pid = r.pid)) = true := by
          refine List.any_eq_true.mpr ⟨l0, hl0, ?_⟩
          rw [h1']
          exact hql0
        simp [hany]
      · have hqr' : (decide (r.pid = c)) = false := by simpa using hqr
        simp [hqr']
  rw [h2]
  simp only [countPidS]
  ring

theorem countPidS_mergeOuterS_unique (L R : SDF) (c : Cell)
    (hL : countPidS L.rows c ≤ 1) (hR : countPidS R.rows c ≤ 1) :
    countPidS (mergeOuterS L R).rows c =
      max (countPidS L.rows c) (countPidS R.rows c) := by
  rw [countPidS_mergeOuterS]
  have h1 : countPidS L.rows c = 0 ∨ countPidS L.rows c = 1 := by omega
  have h2 : countPidS R.rows c = 0 ∨ countPidS R.rows c = 1 := by omega
  rcases h1 with h1 | h1 <;> rcases h2 with h2 | h2 <;> simp [h1, h2]

theorem countPidS_foldl_mergeOuterS :
    ∀ (ds : List SDF) (d : SDF),
      (∀ c, countPidS d.rows c ≤ 1) →
      (∀ df ∈ ds, ∀ c, countPidS df.rows c ≤ 1) →
      ∀ c, countPidS (ds.foldl mergeOuterS d).rows c ≤ 1 := by
  intro ds
  induction ds with
  | nil =>
      intro d hd _ c
      exact hd c
  | cons d' ds ih =>
      intro d hd hds c
      have hd' : ∀ c, countPidS d'.rows c ≤ 1 := hds d' (by simp)
      have hmerged : ∀ c, countPidS (mergeOuterS d d').rows c ≤ 1 := by
        intro c'
        rw [countPidS_mergeOuterS_unique d d' c' (hd c') (hd' c')]
        exact max_le (hd c') (hd' c')
      exact ih (mergeOuterS d d') hmerged
        (fun df hdf => hds df (by simp [hdf])) c

theorem mergeOuterS_wf (L R : SDF)
    (hL : ∀ r ∈ L.rows, r.vals.length = L.nvals)
    (hR : ∀ r ∈ R.rows, r.vals.length = R.nvals) :
    ∀ r ∈ (mergeOuterS L R).rows, r.vals.length = (mergeOuterS L R).nvals := by
  intro r hr
  simp only [mergeOuterS, List.mem_append, List.mem_flatMap, List.mem_map,
    List.mem_filter] at hr ⊢
  rcases hr with ⟨l, hl, hrow⟩ | ⟨r', ⟨hr', _⟩, hrow⟩
  · split at hrow
    · simp only [List.mem_singleton] at hrow
      subst hrow
      simp [pad, hL l hl]
    · simp only [List.mem_map, List.mem_filter] at hrow
      obtain ⟨r', ⟨hr', _⟩, hrow⟩ := hrow
      subst hrow
      simp [hL l hl, hR r' hr']
  · subst hrow
    simp [pad, hR r' hr']

theorem foldl_mergeOuterS_wf :
    ∀ (ds : List SDF) (d : SDF),
      (∀ r ∈ d.rows, r.vals.length = d.nvals) →
      (∀ df ∈ ds, ∀ r ∈ df.rows, r.vals.length = df.nvals) →
      ∀ r ∈ (ds.foldl mergeOuterS d).rows,
        r.vals.length = (ds.foldl mergeOuterS d).nvals := by
  intro ds
  induction ds with
  | nil => intro d hd _; exact hd
  | cons d' ds ih =>
      intro d hd hds
      exact ih (mergeOuterS d d')
        (mergeOuterS_wf d d' hd (hds d' (by simp)))
        (fun df hdf => hds df (by simp [hdf]))

theorem find?_eq_head_filter {α : Type} (q : α → Bool) :
    ∀ l : List α, l.find? q = (l.filter q).head? := by
  intro l
  induction l with
  | nil => rfl
  | cons a l ih =>
      simp only [List.find?_cons, List.filter_cons]
      cases h : q a
      · simpa using ih
      · rfl

theorem find?_eq_of_mem_filter_unique {α : Type} (l : List α) (q : α → Bool)
    (a : α) (ha : a ∈ l.filter q) (hu : l.countP q ≤ 1) :
    l.find? q = some a := by
  have hlen : (l.filter q).length ≤ 1 := by
    rw [← List.countP_eq_length_filter]
    exact hu
  have hfq : l.filter q = [a] := by
    rcases hf : l.filter q with _ | ⟨x, xs⟩
    · rw [hf] at ha
      cases ha
    · rcases xs with _ | ⟨y, ys⟩
      · rw [hf] at ha
        have : a = x := by simpa using ha
        rw [this]
      · rw [hf] at hlen
        simp at hlen
  rw [find?_eq_head_filter, hfq]
  rfl

theorem countPair_mergeInnerNS (L R : NSDF) (p : Cell × Cell) :
    countPair (mergeInnerNS L R).rows p =
      countPair L.rows p * countPair R.rows p := by
  classical
  have hfe : ∀ l : NSRow, (l.pid = p.1 && l.vid = p.2) = true →
      R.rows.filter (fun r => r.pid = l.pid && r.vid = l.vid) =
        R.rows.filter (fun r => r.pid = p.1 && r.vid = p.2) := by
    intro l hl
    simp only [Bool.and_eq_true, decide_eq_true_eq] at hl
    exact List.filter_congr (fun r _ => by rw [hl.1, hl.2])
  have hlen : (R.rows.filter (fun r => r.pid = p.1 && r.vid = p.2)).length =
      countPair R.rows p := by
    rw [countPair, List.countP_eq_length_filter]
  unfold mergeInnerNS countPair
  rw [countP_flatMap]
  have hpt : ∀ l ∈ L.rows,
      (fun l => (((R.rows.filter
            (fun r => r.pid = l.pid && r.vid = l.vid)).map
          (fun r => (⟨l.pid, l.vid, l.vals ++ r.vals⟩ : NSRow))).countP
          (fun r => r.pid = p.1 && r.vid = p.2))) l =
      (fun l => (if (l.pid = p.1 && l.vid = p.2 : Bool)
        then countPair R.rows p else 0)) l := by
    intro l _
    beta_reduce
    by_cases hl : (l.pid = p.1 && l.vid = p.2) = true
    · rw [hfe l hl, if_pos hl, List.countP_map, ← hlen]
      rw [List.countP_eq_length]
      intro r _
      simpa using hl
    · rw [if_neg hl, List.countP_map, List.countP_eq_zero]
      intro r _
      simpa using hl
  rw [List.map_congr_left hpt, sum_map_ite]
  simp only [countPair]
  ring

theorem mergeInnerNS_mem (L R : NSDF) :
    ∀ row ∈ (mergeInnerNS L R).rows, ∃ l ∈ L.rows, ∃ r ∈ R.rows,
      r.pid = l.pid ∧ r.vid = l.vid ∧
      row = ⟨l.pid, l.vid, l.vals ++ r.vals⟩ := by
  intro row hrow
  simp only [mergeInnerNS, List.mem_flatMap, List.mem_map,
    List.mem_filter] at hrow
  obtain ⟨l, hl, r, ⟨hr, hkey⟩, hrow⟩ := hrow
  simp only [Bool.and_eq_true, decide_eq_true_eq] at hkey
  exact ⟨l, hl, r, hr, hkey.1, hkey.2, hrow.symm⟩

theorem countPair_mergeOuterPid (L : NSDF) (R : SDF) (p : Cell × Cell) :
    countPair (mergeOuterPid L R).rows p =
      countPair L.rows p *
        (if countPidS R.rows p.1 = 0 then 1 else countPidS R.rows p.1) +
      (if p.2 = none ∧ countPid L.rows p.1 = 0
        then countPidS R.rows p.1 else 0) := by
  classical
  have hfe : ∀ l : NSRow, (decide (l.pid = p.1)) = true →
      R.rows.filter (fun r => r.pid = l.pid) =
        R.rows.filter (fun r => r.pid = p.1) := by
    intro l hl
    simp only [decide_eq_true_eq] at hl
    exact List.filter_congr (fun r _ => by rw [hl])
  have hlen : (R.rows.filter (fun r => r.pid = p.1)).length =
      countPidS R.rows p.1 := by
    rw [countPidS, List.countP_eq_length_filter]
  unfold mergeOuterPid countPair
  simp only [List.countP_append]
  rw [countP_flatMap]
  have hpt : ∀ l ∈ L.rows,
      (fun l => ((if (R.rows.filter (fun r => r.pid = l.pid)).isEmpty
          then ([⟨l.pid, l.vid, l.vals ++ pad R.nvals⟩] : List NSRow)
          else (R.rows.filter (fun r => r.pid = l.pid)).map
            (fun r => ⟨l.pid, l.vid, l.vals ++ r.vals⟩)).countP
          (fun r => r.pid = p.1 && r.vid = p.2))) l =
      (fun l => (if (l.pid = p.1 && l.vid = p.2 : Bool)
        then (if countPidS R.rows p.1 = 0 then 1 else countPidS R.rows p.1)
        else 0)) l := by
    intro l _
    beta_reduce
    by_cases hl : (l.pid = p.1 && l.vid = p.2) = true
    · have hlp : (decide (l.pid = p.1)) = true := by
        simp only [Bool.and_eq_true] at hl
        exact hl.1
      rw [hfe l hlp, if_pos hl]
      by_cases hemp : (R.rows.filter (fun r => r.pid = p.1)).isEmpty
      · rw [if_pos hemp]
        have h0 : countPidS R.rows p.1 = 0 := by
          rw [← hlen]
          simpa [List.isEmpty_iff_length_eq_zero] using hemp
        rw [if_pos h0]
        simp [List.countP_cons, hl]
      · rw [if_neg hemp]
        have hne : countPidS R.rows p.1 ≠ 0 := by
          rw [← hlen]
          intro hz
          exact hemp (by simpa [List.isEmpty_iff_length_eq_zero] using hz)
        rw [if_neg hne, List.countP_map, ← hlen]
        rw [List.countP_eq_length]
        intro r _
        simpa using hl
    · rw [if_neg hl]
      by_cases hemp : (R.rows.filter (fun r => r.pid = l.pid)).isEmpty
      · rw [if_pos hemp]
        have hl' : (l.pid = p.1 && l.vid = p.2) = false := by simpa using hl
        simp [List.countP_cons, hl']
      · rw [if_neg hemp, List.countP_map, List.countP_eq_zero]
        intro r _
        simpa using hl
  rw [List.map_congr_left hpt, sum_map_ite]
  have h2 : ((R.rows.filter (fun r =>
        !(L.rows.any (fun l => l.pid = r.pid)))).map
      (fun r => (⟨r.pid, none, pad L.nvals ++ r.vals⟩ : NSRow))).countP
      (fun r => r.pid = p.1 && r.vid = p.2) =
      (if p.2 = none ∧ countPid L.rows p.1 = 0
        then countPidS R.rows p.1 else 0) := by
    rw [List.countP_map]
    by_cases hv : p.2 = (none : Cell)
    · have hstep : (R.rows.filter (fun r =>
          !(L.rows.any (fun l => l.pid = r.pid)))).countP
          ((fun r : NSRow => r.pid = p.1 && r.vid = p.2) ∘
            (fun r => (⟨r.pid, none, pad L.nvals ++ r.vals⟩ : NSRow))) =
          (R.rows.filter (fun r =>
            !(L.rows.any (fun l => l.pid = r.pid)))).countP
            (fun r => r.pid = p.1) := by
        refine countP_congr2 _ _ _ (fun r _ => ?_)
        simp [hv]
      rw [hstep, List.countP_filter]
      by_cases hL : countPid L.rows p.1 = 0
      · rw [if_pos ⟨hv, hL⟩]
        have hnone : ∀ l ∈ L.rows, (decide (l.pid = p.1)) = false := by
          intro l hl
          have := List.countP_eq_zero.mp hL l hl
          simpa using this
        have : (R.rows.countP (fun r =>
            decide (r.pid = p.1) && !(L.rows.any (fun l => l.pid = r.pid)))) =
            R.rows.countP (fun r => r.pid = p.1) := by
          refine countP_congr2 _ _ _ (fun r _ => ?_)
          by_cases hqr : (decide (r.pid = p.1)) = true
          · have h1' : r.pid = p.1 := by simpa using hqr
            have hany : (L.rows.any (fun l => l.pid = r.pid)) = false := by
              rw [List.any_eq_false]
              intro l hl
              have := hnone l hl
              rw [h1']
              simpa using this
            rw [hqr, hany]
            rfl
          · have hqr' : (decide (r.pid = p.1)) = false := by simpa using hqr
            rw [hqr']
            simp
        exact this
      · rw [if_neg (by simp [hL])]
        obtain ⟨l0, hl0, hql0⟩ :=
          List.countP_pos_iff.mp (Nat.pos_of_ne_zero hL)
        rw [List.countP_eq_zero]
        intro r _
        by_cases hqr : (decide (r.pid = p.1)) = true
        · have h1' : r.pid = p.1 := by simpa using hqr
          have hany : (L.rows.any (fun l => l.pid = r.pid)) = true := by
            refine List.any_eq_true.mpr ⟨l0, hl0, ?_⟩
            rw [h1']
            exact hql0
          simp [hany]
        · have hqr' : (decide (r.pid = p.1)) = false := by simpa using hqr
          simp [hqr']
    · rw [if_neg (by simp [hv])]
      rw [List.countP_eq_zero]
      intro r _
      simp only [Function.comp]
      have hne : (decide ((none : Cell) = p.2)) = false := by
        simp only [decide_eq_false_iff_not]
        intro h
        exact hv h.symm
      simp [hne]
  rw [h2]
  ring

theorem mergeOuterPid_wf (L : NSDF) (R : SDF)
    (hL : ∀ r ∈ L.rows, r.vals.length = L.nvals)
    (hR : ∀ r ∈ R.rows, r.vals.length = R.nvals) :
    ∀ r ∈ (mergeOuterPid L R).rows,
      r.vals.length = (mergeOuterPid L R).nvals := by
  intro r hr
  simp only [mergeOuterPid, List.mem_append, List.mem_flatMap, List.mem_map,
    List.mem_filter] at hr ⊢
  rcases hr with ⟨l, hl, hrow⟩ | ⟨r', ⟨hr', _⟩, hrow⟩
  · split at hrow
    · simp only [List.mem_singleton] at hrow
      subst hrow
      simp [pad, hL l hl]
    · simp only [List.mem_map, List.mem_filter] at hrow
      obtain ⟨r', ⟨hr', _⟩, hrow⟩ := hrow
      subst hrow
      simp [hL l hl, hR r' hr']
  · subst hrow
    simp [pad, hR r' hr']

theorem mergeOuterPid_static_vals (L : NSDF) (R : SDF)
    (hLwf : ∀ l ∈ L.rows, l.vals.length = L.nvals)
    (hRu : ∀ c, countPidS R.rows c ≤ 1) :
    ∀ r ∈ (mergeOuterPid L R).rows,
      r.vals.drop L.nvals = staticLookup R r.pid := by
  intro row hrow
  simp only [mergeOuterPid, List.mem_append, List.mem_flatMap, List.mem_map,
    List.mem_filter] at hrow
  rcases hrow with ⟨l, hl, hrow⟩ | ⟨r', ⟨hr', _⟩, hrow⟩
  · split at hrow
    case isTrue hemp =>
      simp only [List.mem_singleton] at hrow
      subst hrow
      have hdrop : (l.vals ++ pad R.nvals).drop L.nvals = pad R.nvals :=
        List.drop_left' (hLwf l hl)
      rw [hdrop]
      unfold staticLookup
      rw [find?_eq_head_filter]
      have : R.rows.filter (fun r => r.pid = l.pid) = [] := by
        simpa [List.isEmpty_iff] using hemp
      rw [this]
      rfl
    case isFalse hemp =>
      simp only [List.mem_map, List.mem_filter] at hrow
      obtain ⟨r', ⟨hr', hkey⟩, hrow⟩ := hrow
      subst hrow
      have hdrop : (l.vals ++ r'.vals).drop L.nvals = r'.vals :=
        List.drop_left' (hLwf l hl)
      rw [hdrop]
      unfold staticLookup
      have hfind : R.rows.find? (fun r => r.pid = l.pid) = some r' := by
        refine find?_eq_of_mem_filter_unique R.rows _ r' ?_ ?_
        · exact List.mem_filter.mpr ⟨hr', hkey⟩
        · have := hRu l.pid
          simpa [countPidS] using this
      rw [hfind]
  · subst hrow
    have hdrop : (pad L.nvals ++ r'.vals).drop L.nvals = r'.vals :=
      List.drop_left' (by simp [pad])
    rw [hdrop]
    unfold staticLookup
    have hfind : R.rows.find? (fun r => r.pid = r'.pid) = some r' := by
      refine find?_eq_of_mem_filter_unique R.rows _ r' ?_ ?_
      · exact List.mem_filter.mpr ⟨hr', by simp⟩
      · have := hRu r'.pid
        simpa [countPidS] using this
    rw [hfind]

theorem countPair_le_countPid (rows : List NSRow) (p : Cell × Cell) :
    countPair rows p ≤ countPid rows p.1 := by
  simp only [countPair, countPid]
  refine List.countP_mono_left (fun r _ h => ?_)
  simp only [Bool.and_eq_true, decide_eq_true_eq] at h
  simpa using h.1

theorem countPair_map_proj (l : List NSRow) (p : Cell × Cell) :
    countPair (l.map (fun r => (⟨r.pid, r.vid, []⟩ : NSRow))) p =
      countPair l p := by
  simp only [countPair, List.countP_map]
  rfl

theorem countPidS_map_proj (l : List NSRow) (c : Cell) :
    countPidS (l.map (fun r => (⟨r.pid, r.vals⟩ : SRow))) c =
      countPid l c := by
  simp only [countPidS, countPid, List.countP_map]
  rfl

theorem specFrame_subset (visits : Option (List String)) (sp : SourceSpec) :
    ∀ r ∈ specFrame visits sp, r ∈ sp.rows := by
  intro r hr
  simp only [specFrame] at hr
  split at hr
  · exact hr
  · cases visits with
    | none => exact hr
    | some vs => exact (List.mem_filter.mp hr).1

theorem foldl_mergeOuterS_nvals :
    ∀ (ds : List SDF) (d : SDF), (∀ f ∈ ds, f.nvals = 1) →
      (ds.foldl mergeOuterS d).nvals = d.nvals + ds.length := by
  intro ds
  induction ds with
  | nil => intro d _; simp
  | cons d' ds ih =>
      intro d hds
      rw [List.foldl_cons,
        ih (mergeOuterS d d') (fun f hf => hds f (by simp [hf]))]
      have h1 : d'.nvals = 1 := hds d' (by simp)
      have h2 : (mergeOuterS d d').nvals = d.nvals + d'.nvals := rfl
      rw [h2, h1]
      simp only [List.length_cons]
      omega

/-- The core of the merged frame's shape: with a manifest whose pairs are
unique and coincide with the non-static frame's, a non-static frame with one
row per pair of `P`, and a static frame unique per participant, the final
inner merge of `get_tabular_info_and_merge` has exactly one row per pair of
`P` and its static columns are a function of the participant. -/
theorem gtiam_core (m dfN : NSDF) (dfS : SDF) (P : Cell × Cell → Prop)
    [DecidablePred P]
    (hcN : ∀ p, countPair dfN.rows p = if P p then 1 else 0)
    (hmu : ∀ p, countPair m.rows p ≤ 1)
    (hmw : ∀ r ∈ m.rows, r.vals.length = m.nvals)
    (hmiff : ∀ p, 0 < countPair m.rows p ↔ P p)
    (hSu : ∀ c, countPidS dfS.rows c ≤ 1)
    (hSwf : ∀ r ∈ dfS.rows, r.vals.length = dfS.nvals) :
    (∀ p, countPair
        (mergeInnerNS (mergeOuterPid m dfS) (mergeOuterNS m dfN)).rows p =
      if P p then 1 else 0) ∧
    (∀ r ∈ (mergeInnerNS (mergeOuterPid m dfS) (mergeOuterNS m dfN)).rows,
      staticSlice m.nvals dfS.nvals r = staticLookup dfS r.pid) := by
  constructor
  · intro p
    rw [countPair_mergeInnerNS, countPair_mergeOuterPid,
      countPair_mergeOuterNS, hcN p]
    by_cases hP : P p
    · have hm1 : countPair m.rows p = 1 := by
        have h1 := hmu p
        have h2 := (hmiff p).mpr hP
        omega
      have hpid : 0 < countPid m.rows p.1 :=
        lt_of_lt_of_le ((hmiff p).mpr hP) (countPair_le_countPid m.rows p)
      have hne2 : ¬(p.2 = none ∧ countPid m.rows p.1 = 0) := by
        rintro ⟨_, h0⟩
        omega
      rw [if_pos hP, hm1, if_neg hne2]
      have hcS := hSu p.1
      by_cases hs0 : countPidS dfS.rows p.1 = 0
      · simp [hs0]
      · have hs1 : countPidS dfS.rows p.1 = 1 := by omega
        simp [hs0, hs1]
    · have hm0 : countPair m.rows p = 0 := by
        have h1 := hmu p
        by_contra hc
        exact hP ((hmiff p).mp (by omega))
      rw [if_neg hP, hm0]
      simp
  · intro r hr
    obtain ⟨l, hl, n, hn, hp1, hp2, hrow⟩ :=
      mergeInnerNS_mem (mergeOuterPid m dfS) (mergeOuterNS m dfN) r hr
    have hlwf : l.vals.length = m.nvals + dfS.nvals :=
      mergeOuterPid_wf m dfS hmw hSwf l hl
    have hstat : l.vals.drop m.nvals = staticLookup dfS l.pid :=
      mergeOuterPid_static_vals m dfS hmw hSu l hl
    subst hrow
    show ((l.vals ++ n.vals).drop m.nvals).take dfS.nvals =
      staticLookup dfS l.pid
    have hdrop : (l.vals ++ n.vals).drop m.nvals =
        l.vals.drop m.nvals ++ n.vals :=
      List.drop_append_of_le_length (by omega)
    rw [hdrop, hstat]
    have hlen : (staticLookup dfS l.pid).length = dfS.nvals := by
      simp only [staticLookup]
      cases hf : dfS.rows.find? (fun r0 => r0.pid = l.pid) with
      | none => simp [pad]
      | some r0 => exact hSwf r0 (List.mem_of_find?_eq_some hf)
    exact List.take_left' hlen

/-- C3 (amended): for a run of the tabular merge with at least one non-static
column spec, provided every non-static source has at most one row per
`(participant_id, visit_id)` pair, every static source at most one row per
participant, every source one value column, and the manifest — when one is
supplied — has unique, well-formed rows whose pairs are exactly those of the
non-static sources, the merge succeeds and its output has exactly one row per
`(participant_id, visit_id)` pair appearing in some non-static source, the
static column slice is constant across output rows sharing a participant, and
with no static specs the merged non-static table itself is returned.  The
unconditional original claim is refuted by `claim_C3_counterexample`. -/
theorem claim_C3_merge_grain (visits : Option (List String))
    (specs : List SourceSpec) (df_manifest : Option NSDF)
    (hne : specs.filter (fun sp => !sp.isStatic) ≠ [])
    (huNS : ∀ sp ∈ specs, sp.isStatic = false →
      ∀ p, countPair (specFrame visits sp) p ≤ 1)
    (huS : ∀ sp ∈ specs, sp.isStatic = true →
      ∀ c, countPid (specFrame visits sp) c ≤ 1)
    (hwf : ∀ sp ∈ specs, ∀ r ∈ sp.rows, r.vals.length = 1)
    (hman : ∀ m, df_manifest = some m →
      (∀ p, countPair m.rows p ≤ 1) ∧
      (∀ r ∈ m.rows, r.vals.length = m.nvals) ∧
      (∀ p, 0 < countPair m.rows p ↔
        ∃ sp ∈ specs, sp.isStatic = false ∧
          0 < countPair (specFrame visits sp) p)) :
    ∃ df, get_tabular_info_and_merge visits specs df_manifest =
        Except.ok df ∧
      (∀ p, countPair df.rows p =
        if ∃ sp ∈ specs, sp.isStatic = false ∧
            0 < countPair (specFrame visits sp) p
        then 1 else 0) ∧
      (∀ r1 ∈ df.rows, ∀ r2 ∈ df.rows, r1.pid = r2.pid →
        staticSlice (manifestNvals df_manifest)
            (specs.filter (fun sp => sp.isStatic)).length r1 =
          staticSlice (manifestNvals df_manifest)
            (specs.filter (fun sp => sp.isStatic)).length r2) ∧
      (specs.filter (fun sp => sp.isStatic) = [] →
        merge_df_list_ns ((specs.filter (fun sp => !sp.isStatic)).map
          (fun sp => ⟨1, specFrame visits sp⟩)) = some df) := by
  classical
  rcases hfs : specs.filter (fun sp => !sp.isStatic) with _ | ⟨sp0, sps⟩
  · exact absurd hfs hne
  have hmemNS : ∀ sp ∈ sp0 :: sps, sp ∈ specs ∧ sp.isStatic = false := by
    intro sp hsp
    have h1 : sp ∈ specs.filter (fun sp => !sp.isStatic) := by
      rw [hfs]; exact hsp
    have h2 := List.mem_filter.mp h1
    exact ⟨h2.1, by simpa using h2.2⟩
  have hdU : ∀ p, countPair (specFrame visits sp0) p ≤ 1 :=
    huNS sp0 (hmemNS sp0 (by simp)).1 (hmemNS sp0 (by simp)).2
  have hdsU : ∀ f ∈ sps.map (fun sp => (⟨1, specFrame visits sp⟩ : NSDF)),
      ∀ p, countPair f.rows p ≤ 1 := by
    intro f hf p
    obtain ⟨sp, hsp, rfl⟩ := List.mem_map.mp hf
    exact huNS sp (hmemNS sp (by simp [hsp])).1
      (hmemNS sp (by simp [hsp])).2 p
  have hcN : ∀ p, countPair
      ((sps.map (fun sp => (⟨1, specFrame visits sp⟩ : NSDF))).foldl
        mergeOuterNS ⟨1, specFrame visits sp0⟩).rows p =
      if ∃ sp ∈ specs, sp.isStatic = false ∧
          0 < countPair (specFrame visits sp) p
      then 1 else 0 := by
    intro p
    rw [countPair_foldl_mergeOuterNS _ _ hdU hdsU p]
    refine if_congr ?_ rfl rfl
    constructor
    · rintro (h | ⟨f, hf, hpos⟩)
      · exact ⟨sp0, (hmemNS sp0 (by simp)).1, (hmemNS sp0 (by simp)).2, h⟩
      · obtain ⟨sp, hsp, rfl⟩ := List.mem_map.mp hf
        exact ⟨sp, (hmemNS sp (by simp [hsp])).1,
          (hmemNS sp (by simp [hsp])).2, hpos⟩
    · rintro ⟨sp, hsp, hns, hpos⟩
      have h1 : sp ∈ sp0 :: sps := by
        rw [← hfs]
        exact List.mem_filter.mpr ⟨hsp, by simp [hns]⟩
      rcases List.mem_cons.mp h1 with rfl | h2
      · exact Or.inl hpos
      · exact Or.inr ⟨⟨1, specFrame visits sp⟩,
          List.mem_map.mpr ⟨sp, h2, rfl⟩, hpos⟩
  obtain ⟨dfN, hdfNdef⟩ :
      ∃ dfN, (sps.map (fun sp => (⟨1, specFrame visits sp⟩ : NSDF))).foldl
        mergeOuterNS ⟨1, specFrame visits sp0⟩ = dfN := ⟨_, rfl⟩
  rw [hdfNdef] at hcN
  rcases hst : specs.filter (fun sp => sp.isStatic) with _ | ⟨st0, sts⟩
  · refine ⟨dfN, ?_, hcN, ?_, ?_⟩
    · simp only [get_tabular_info_and_merge, get_tabular_info, hfs, hst,
        List.map_nil, List.map_cons, merge_df_list_s, merge_df_list_ns]
      rw [hdfNdef]
    · intro r1 _ r2 _ _
      rw [hst]
      simp [staticSlice]
    · intro _
      rw [hfs]
      simp only [List.map_cons, merge_df_list_ns]
      rw [hdfNdef]
  · have hmemS : ∀ sp ∈ st0 :: sts, sp ∈ specs ∧ sp.isStatic = true := by
      intro sp hsp
      have h1 : sp ∈ specs.filter (fun sp => sp.isStatic) := by
        rw [hst]; exact hsp
      have h2 := List.mem_filter.mp h1
      exact ⟨h2.1, by simpa using h2.2⟩
    obtain ⟨dfS, hdfSdef⟩ :
        ∃ dfS, (sts.map (fun sp => (⟨1, (specFrame visits sp).map
            (fun r => (⟨r.pid, r.vals⟩ : SRow))⟩ : SDF))).foldl
          mergeOuterS
          ⟨1, (specFrame visits st0).map
            (fun r => (⟨r.pid, r.vals⟩ : SRow))⟩ = dfS := ⟨_, rfl⟩
    have hSu : ∀ c, countPidS dfS.rows c ≤ 1 := by
      rw [← hdfSdef]
      refine countPidS_foldl_mergeOuterS _ _ ?_ ?_
      · intro c
        have h3 := huS st0 (hmemS st0 (by simp)).1 (hmemS st0 (by simp)).2 c
        simpa [countPidS_map_proj] using h3
      · intro f hf c
        obtain ⟨sp, hsp, rfl⟩ := List.mem_map.mp hf
        have h3 := huS sp (hmemS sp (by simp [hsp])).1
          (hmemS sp (by simp [hsp])).2 c
        simpa [countPidS_map_proj] using h3
    have hSwf : ∀ r ∈ dfS.rows, r.vals.length = dfS.nvals := by
      rw [← hdfSdef]
      refine foldl_mergeOuterS_wf _ _ ?_ ?_
      · intro r hr
        simp only [List.mem_map] at hr
        obtain ⟨r0, hr0, rfl⟩ := hr
        exact hwf st0 (hmemS st0 (by simp)).1 r0 (specFrame_subset _ _ r0 hr0)
      · intro f hf r hr
        obtain ⟨sp, hsp, rfl⟩ := List.mem_map.mp hf
        simp only [List.mem_map] at hr
        obtain ⟨r0, hr0, rfl⟩ := hr
        exact hwf sp (hmemS sp (by simp [hsp])).1 r0
          (specFrame_subset _ _ r0 hr0)
    have hSn : dfS.nvals = (st0 :: sts).length := by
      rw [← hdfSdef]
      have hone : ∀ f ∈ sts.map (fun sp => (⟨1, (specFrame visits sp).map
          (fun r => (⟨r.pid, r.vals⟩ : SRow))⟩ : SDF)), f.nvals = 1 := by
        intro f hf
        obtain ⟨sp, hsp, rfl⟩ := List.mem_map.mp hf
        rfl
      rw [foldl_mergeOuterS_nvals _ _ hone]
      simp only [List.length_map, List.length_cons]
      omega
    rcases df_manifest with _ | m0
    · have hmu : ∀ p, countPair (dfN.rows.map
          (fun r => (⟨r.pid, r.vid, []⟩ : NSRow))) p ≤ 1 := by
        intro p
        rw [countPair_map_proj, hcN p]
        split <;> omega
      have hmw : ∀ r ∈ dfN.rows.map (fun r => (⟨r.pid, r.vid, []⟩ : NSRow)),
          r.vals.length = 0 := by
        intro r hr
        obtain ⟨r0, _, rfl⟩ := List.mem_map.mp hr
        rfl
      have hmiff : ∀ p, 0 < countPair (dfN.rows.map
          (fun r => (⟨r.pid, r.vid, []⟩ : NSRow))) p ↔
          ∃ sp ∈ specs, sp.isStatic = false ∧
            0 < countPair (specFrame visits sp) p := by
        intro p
        rw [countPair_map_proj, hcN p]
        split
        case isTrue h => simp [h]
        case isFalse h => simp [h]
      have hcore := gtiam_core
        ⟨0, dfN.rows.map (fun r => (⟨r.pid, r.vid, []⟩ : NSRow))⟩ dfN dfS
        (fun p => ∃ sp ∈ specs, sp.isStatic = false ∧
          0 < countPair (specFrame visits sp) p)
        hcN hmu hmw hmiff hSu hSwf
      refine ⟨mergeInnerNS
          (mergeOuterPid
            ⟨0, dfN.rows.map (fun r => (⟨r.pid, r.vid, []⟩ : NSRow))⟩ dfS)
          (mergeOuterNS
            ⟨0, dfN.rows.map (fun r => (⟨r.pid, r.vid, []⟩ : NSRow))⟩ dfN),
        ?_, hcore.1, ?_, ?_⟩
      · simp only [get_tabular_info_and_merge, get_tabular_info, hfs, hst,
          List.map_cons, merge_df_list_s, merge_df_list_ns, hdfNdef, hdfSdef]
      · intro r1 h1 r2 h2 hpid
        have e1 : staticSlice 0 dfS.nvals r1 = staticLookup dfS r1.pid :=
          hcore.2 r1 h1
        have e2 : staticSlice 0 dfS.nvals r2 = staticLookup dfS r2.pid :=
          hcore.2 r2 h2
        have hlen2 : (specs.filter (fun sp => sp.isStatic)).length =
            dfS.nvals := by rw [hst, hSn]
        show staticSlice 0
            ((specs.filter (fun sp => sp.isStatic)).length) r1 =
          staticSlice 0
            ((specs.filter (fun sp => sp.isStatic)).length) r2
        rw [hlen2, e1, e2, hpid]
      · intro hempty
        rw [hst] at hempty
        simp at hempty
    · obtain ⟨hmu, hmw, hmiff⟩ := hman m0 rfl
      have hcore := gtiam_core m0 dfN dfS
        (fun p => ∃ sp ∈ specs, sp.isStatic = false ∧
          0 < countPair (specFrame visits sp) p)
        hcN hmu hmw hmiff hSu hSwf
      refine ⟨mergeInnerNS (mergeOuterPid m0 dfS) (mergeOuterNS m0 dfN),
        ?_, hcore.1, ?_, ?_⟩
      · simp only [get_tabular_info_and_merge, get_tabular_info, hfs, hst,
          List.map_cons, merge_df_list_s, merge_df_list_ns, hdfNdef, hdfSdef]
      · intro r1 h1 r2 h2 hpid
        have e1 := hcore.2 r1 h1
        have e2 := hcore.2 r2 h2
        have hlen2 : (specs.filter (fun sp => sp.isStatic)).length =
            dfS.nvals := by rw [hst, hSn]
        show staticSlice m0.nvals
            ((specs.filter (fun sp => sp.isStatic)).length) r1 =
          staticSlice m0.nvals
            ((specs.filter (fun sp => sp.isStatic)).length) r2
        rw [hlen2, e1, e2, hpid]
      · intro hempty
        rw [hst] at hempty
        simp at hempty

/-- Counterexample to C3 as stated: a run with one non-static source holding
two rows for the same `(participant_id, visit_id)` pair (and no static
source) succeeds and returns a frame with two rows for that pair, so the
output does not have exactly one row per distinct pair appearing in the
non-static sources. -/
theorem claim_C3_counterexample :
    get_tabular_info_and_merge none
        [⟨"false", [⟨some "1", some "BL", [some "x"]⟩,
          ⟨some "1", some "BL", [some "y"]⟩]⟩] none =
      Except.ok ⟨1, [⟨some "1", some "BL", [some "x"]⟩,
        ⟨some "1", some "BL", [some "y"]⟩]⟩ ∧
    countPair [⟨some "1", some "BL", [some "x"]⟩,
        ⟨some "1", some "BL", [some "y"]⟩] (some "1", some "BL") = 2 := by
  decide

/-- Witness for C3: the amended merge-grain theorem applied to a concrete
run with one clean non-static source and one clean static source and no
supplied manifest. -/
theorem claim_C3_merge_grain_witness :
    ∃ df, get_tabular_info_and_merge none
        [⟨"false", [⟨some "1", some "BL", [some "x"]⟩]⟩,
         ⟨"true", [⟨some "1", none, [some "s"]⟩]⟩] none = Except.ok df ∧
      (∀ p, countPair df.rows p =
        if ∃ sp ∈ ([⟨"false", [⟨some "1", some "BL", [some "x"]⟩]⟩,
            ⟨"true", [⟨some "1", none, [some "s"]⟩]⟩] : List SourceSpec),
            sp.isStatic = false ∧ 0 < countPair (specFrame none sp) p
        then 1 else 0) ∧
      (∀ r1 ∈ df.rows, ∀ r2 ∈ df.rows, r1.pid = r2.pid →
        staticSlice (manifestNvals none)
            (([⟨"false", [⟨some "1", some "BL", [some "x"]⟩]⟩,
              ⟨"true", [⟨some "1", none, [some "s"]⟩]⟩] :
                List SourceSpec).filter (fun sp => sp.isStatic)).length r1 =
          staticSlice (manifestNvals none)
            (([⟨"false", [⟨some "1", some "BL", [some "x"]⟩]⟩,
              ⟨"true", [⟨some "1", none, [some "s"]⟩]⟩] :
                List SourceSpec).filter (fun sp => sp.isStatic)).length r2) ∧
      (([⟨"false", [⟨some "1", some "BL", [some "x"]⟩]⟩,
          ⟨"true", [⟨some "1", none, [some "s"]⟩]⟩] :
            List SourceSpec).filter (fun sp => sp.isStatic) = [] →
        merge_df_list_ns
          ((([⟨"false", [⟨some "1", some "BL", [some "x"]⟩]⟩,
            ⟨"true", [⟨some "1", none, [some "s"]⟩]⟩] :
              List SourceSpec).filter (fun sp => !sp.isStatic)).map
            (fun sp => ⟨1, specFrame none sp⟩)) = some df) := by
  refine claim_C3_merge_grain none
    [⟨"false", [⟨some "1", some "BL", [some "x"]⟩]⟩,
     ⟨"true", [⟨some "1", none, [some "s"]⟩]⟩] none ?_ ?_ ?_ ?_ ?_
  · decide
  · intro sp hsp _ p
    simp only [countPair]
    refine le_trans (List.countP_le_length _) ?_
    simp only [List.mem_cons, List.not_mem_nil, or_false] at hsp
    rcases hsp with rfl | rfl
    · decide
    · decide
  · intro sp hsp _ c
    simp only [countPid]
    refine le_trans (List.countP_le_length _) ?_
    simp only [List.mem_cons, List.not_mem_nil, or_false] at hsp
    rcases hsp with rfl | rfl
    · decide
    · decide
  · decide
  · intro m hm
    exact Option.noConfusion hm

end TabularUtils

end PPMI
